import Mathlib

/-!
# GPSUSB: `gps.cpp`

A shallow embedding of `setup_adb_forward`, `connect_to_gps` and `main` from
`app/src/main/res/layout/gps.cpp`.

The program talks to the operating system only.  Every platform call is given
its answer by an environment `Env` (a script of answers), and every platform
call and every console write the program performs is appended to a trace of
`Event`s, in program order.  A `char` is a `Nat` (the byte value, `0` is the
terminator `'\0'`); buffers are lists of bytes of the declared size, and every
access to a buffer is bounds checked, so that an access outside the buffer is
an outcome of its own (`Outcome.outOfBounds`).  A blocking call that the
environment never answers ends the run with `Outcome.blocked`.
-/

namespace GPSUSB

/-! ## Console output -/

/-- One operand of a `<<` chain on `std::cout` / `std::cerr`. -/
inductive Item where
  /-- a string literal of the source -/
  | lit (s : String)
  /-- an integer operand (`DWORD` or `int`), printed in decimal -/
  | num (n : Int)
  /-- a `char*` or `std::string` operand: the bytes that are written -/
  | text (bytes : List Nat)
  /-- the manipulator `std::endl` -/
  | endl
  deriving DecidableEq

/-- The four handles `setup_adb_forward` works with. -/
inductive Handle where
  | hChildStdoutRd
  | hChildStdoutWr
  | hProcess
  | hThread
  deriving DecidableEq

/-- The two functions `main` calls. -/
inductive Fn where
  | setup_adb_forward
  | connect_to_gps
  deriving DecidableEq

/-- What the program does that is visible from outside: one constructor per
platform call of the source (with the arguments and the answer that matter),
one per output statement, and the entry and return of the two functions
`main` calls. -/
inductive Event where
  /-- one statement `std::cout << ... ;` -/
  | cout (items : List Item)
  /-- one statement `std::cerr << ... ;` -/
  | cerr (items : List Item)
  | CreatePipe (ok : Bool)
  | SetHandleInformation (ok : Bool)
  | CreateProcessA (ok : Bool)
  | GetLastError
  | CloseHandle (h : Handle)
  /-- the call `WaitForSingleObject(processInfo.hProcess, INFINITE)` has returned -/
  | WaitForSingleObject
  | GetExitCodeProcess
  /-- a call of `ReadFile` asking for `req` bytes, its result and `bytesRead` -/
  | ReadFile (req : Nat) (ok : Bool) (bytesRead : Nat)
  | WSAStartup (ret : Int)
  | socket (ok : Bool)
  | WSAGetLastError
  | connect (ret : Int)
  | closesocket
  | WSACleanup
  /-- the call `memset(buffer, 0, n)` -/
  | memset (n : Nat)
  /-- a call of `recv` asking for `len` bytes, and its return value -/
  | recv (len : Nat) (ret : Int)
  | Sleep (ms : Nat)
  | enter (f : Fn)
  | leave (f : Fn)
  deriving DecidableEq

/-! ## The environment -/

/-- The answer of the platform to one `ReadFile` on the pipe: the `BOOL` it
returns and the bytes it has for the caller. -/
structure PipeRead where
  ok : Bool
  data : List Nat

/-- The answer of the platform to one `recv`: the `int` it returns and the
bytes it has for the caller. -/
structure RecvResult where
  ret : Int
  data : List Nat

/-- The answers of the platform to the calls of one run. -/
structure Env where
  /-- result of `CreatePipe` -/
  createPipe : Bool
  /-- result of `SetHandleInformation` -/
  setHandleInformation : Bool
  /-- result of `CreateProcessA` -/
  createProcess : Bool
  /-- value of `GetLastError()` -/
  lastError : Nat
  /-- whether the child process ever terminates, i.e. whether
  `WaitForSingleObject(hProcess, INFINITE)` returns -/
  childTerminates : Bool
  /-- the `DWORD` that `GetExitCodeProcess` stores in `exitCode` -/
  exitCode : Nat
  /-- the answers to the successive `ReadFile` calls; no answer left means the
  call does not return -/
  pipeReads : List PipeRead
  /-- return value of `WSAStartup` -/
  wsaStartup : Int
  /-- whether `socket` returned something else than `INVALID_SOCKET` -/
  socketOk : Bool
  /-- value of `WSAGetLastError()` -/
  wsaLastError : Int
  /-- return value of `connect` -/
  connectRet : Int
  /-- the answers to the successive `recv` calls; no answer left means the call
  does not return -/
  recvs : List RecvResult
  /-- content of uninitialised stack memory, by offset -/
  garbage : Nat → Nat

/-- The constant `SOCKET_ERROR` of winsock2.h. -/
def SOCKET_ERROR : Int := -1

/-! ## Runs -/

/-- How a run of a function ends. -/
inductive Outcome (α : Type) where
  /-- the function returned `a` -/
  | returned (a : α)
  /-- a blocking platform call never returned -/
  | blocked
  /-- a buffer was accessed outside its bounds -/
  | outOfBounds
  deriving DecidableEq

/-- A run: the events in program order, and how it ended. -/
structure Run (α : Type) where
  trace : List Event
  outcome : Outcome α

/-- The run that returns `a` at once. -/
def Run.ret {α : Type} (a : α) : Run α := ⟨[], .returned a⟩

/-- The events `es`, then the run `r`. -/
def Run.emit {α : Type} (es : List Event) (r : Run α) : Run α :=
  ⟨es ++ r.trace, r.outcome⟩

/-- Sequencing: `r`, and when it returned `a`, then `k a`. -/
def Run.andThen {α β : Type} (r : Run α) (k : α → Run β) : Run β :=
  match r.outcome with
  | .returned a => ⟨r.trace ++ (k a).trace, (k a).outcome⟩
  | .blocked => ⟨r.trace, .blocked⟩
  | .outOfBounds => ⟨r.trace, .outOfBounds⟩

/-! ## Buffers -/

/-- A local `char buffer[n];` without initialiser: `n` bytes of whatever the
stack holds. -/
def uninit (n : Nat) (garbage : Nat → Nat) : List Nat :=
  (List.range n).map garbage

/-- The platform stores what it has, at most `len` bytes, at the start of
`buffer` (`ReadFile`, `recv`); the rest of the buffer is untouched.  Returns
the buffer and the number of bytes stored, or `none` when `len` bytes do not
fit in the buffer. -/
def deliver (buffer : List Nat) (len : Nat) (data : List Nat) :
    Option (List Nat × Nat) :=
  if len ≤ buffer.length then
    some (data.take len ++ buffer.drop (data.take len).length, (data.take len).length)
  else none

/-- The assignment `buffer[i] = v`; `none` when `i` is outside the buffer. -/
def storeAt (buffer : List Nat) (i : Nat) (v : Nat) : Option (List Nat) :=
  if i < buffer.length then some (buffer.set i v) else none

/-- The bytes of the C string that starts at `buffer`: those before the first
`'\0'`; `none` when the buffer holds no `'\0'` (the read would leave it). -/
def cstr (buffer : List Nat) : Option (List Nat) :=
  if 0 ∈ buffer then some (buffer.takeWhile (fun b => b != 0)) else none

/-- The call `memset(buffer, 0, sizeof(buffer))`. -/
def zeroed (buffer : List Nat) : List Nat :=
  List.replicate buffer.length 0

/-! ## `setup_adb_forward` -/

/-- The loop of lines 85-88:
`while (ReadFile(hChildStdoutRd, buffer, sizeof(buffer) - 1, &bytesRead, NULL) && bytesRead > 0)`
with body `buffer[bytesRead] = '\0'; result += buffer;`.  Returns `result`. -/
def readLoop (buffer : List Nat) (result : List Nat) : List PipeRead → Run (List Nat)
  | [] => ⟨[], .blocked⟩
  | r :: rest =>
    match deliver buffer (buffer.length - 1) r.data with
    | none => ⟨[], .outOfBounds⟩
    | some (buffer1, bytesRead) =>
      Run.emit [.ReadFile (buffer.length - 1) r.ok bytesRead] <|
      if r.ok && decide (bytesRead > 0) then
        match storeAt buffer1 bytesRead 0 with
        | none => ⟨[], .outOfBounds⟩
        | some buffer2 =>
          match cstr buffer2 with
          | none => ⟨[], .outOfBounds⟩
          | some s => readLoop buffer2 (result ++ s) rest
      else Run.ret result

/-- The function `setup_adb_forward` (lines 14-106).  The results of
`WaitForSingleObject`, `GetExitCodeProcess` and `CloseHandle` are not looked
at by the source; `exitCode` is what the environment stored in it. -/
def setup_adb_forward (env : Env) : Run Bool :=
  Run.emit [.cout [.lit "设置ADB端口转发", .endl],
            .CreatePipe env.createPipe] <|
  if !env.createPipe then
    Run.emit [.cerr [.lit "创建管道失败", .endl]] (Run.ret false)
  else
  Run.emit [.SetHandleInformation env.setHandleInformation] <|
  if !env.setHandleInformation then
    Run.emit [.cerr [.lit "设置句柄信息失败", .endl],
              .CloseHandle .hChildStdoutRd,
              .CloseHandle .hChildStdoutWr] (Run.ret false)
  else
  Run.emit [.CreateProcessA env.createProcess] <|
  if !env.createProcess then
    Run.emit [.GetLastError,
              .cerr [.lit "创建进程失败，错误码: ", .num env.lastError, .endl],
              .CloseHandle .hChildStdoutRd,
              .CloseHandle .hChildStdoutWr] (Run.ret false)
  else
  Run.emit [.CloseHandle .hChildStdoutWr] <|
  if !env.childTerminates then ⟨[], .blocked⟩
  else
  Run.emit [.WaitForSingleObject, .GetExitCodeProcess] <|
  (readLoop (uninit 4096 env.garbage) [] env.pipeReads).andThen fun result =>
  Run.emit [.CloseHandle .hProcess,
            .CloseHandle .hThread,
            .CloseHandle .hChildStdoutRd] <|
  if env.exitCode == 0 then
    Run.emit [.cout [.lit "成功设置ADB端口转发", .endl]] (Run.ret true)
  else
    Run.emit [.cerr [.lit "ADB端口转发设置失败，返回码: ", .num env.exitCode, .endl]] <|
    if !result.isEmpty then
      Run.emit [.cerr [.lit "错误输出: ", .text result, .endl]] (Run.ret false)
    else Run.ret false

/-! ## `connect_to_gps` -/

/-- The loop of lines 150-159: `memset`, `recv(sock, buffer, 1024, 0)`, leave
when `bytesReceived <= 0`, otherwise write the buffer to `std::cout`. -/
def recvLoop (buffer : List Nat) : List RecvResult → Run Unit
  | [] => ⟨[.memset buffer.length], .blocked⟩
  | r :: rest =>
    Run.emit [.memset buffer.length] <|
    match deliver (zeroed buffer) 1024 r.data with
    | none => ⟨[], .outOfBounds⟩
    | some (buffer1, _) =>
      Run.emit [.recv 1024 r.ret] <|
      if r.ret ≤ 0 then Run.ret ()
      else
        match cstr buffer1 with
        | none => ⟨[], .outOfBounds⟩
        | some s =>
          Run.emit [.cout [.lit "收到GPS数据: ", .text s, .endl]] <|
          recvLoop buffer1 rest

/-- The function `connect_to_gps` (lines 111-164).  Filling `serv_addr`
(`htons`, `inet_pton`, lines 132-134) has no effect that is observed here. -/
def connect_to_gps (env : Env) : Run Unit :=
  Run.emit [.WSAStartup env.wsaStartup] <|
  if env.wsaStartup != 0 then
    Run.emit [.cerr [.lit "WSAStartup失败: ", .num env.wsaStartup, .endl]] (Run.ret ())
  else
  Run.emit [.socket env.socketOk] <|
  if !env.socketOk then
    Run.emit [.WSAGetLastError,
              .cerr [.lit "套接字创建失败: ", .num env.wsaLastError, .endl],
              .WSACleanup] (Run.ret ())
  else
  Run.emit [.connect env.connectRet] <|
  if env.connectRet == SOCKET_ERROR then
    Run.emit [.WSAGetLastError,
              .cerr [.lit "连接失败: ", .num env.wsaLastError, .endl],
              .closesocket,
              .WSACleanup] (Run.ret ())
  else
  Run.emit [.cout [.lit "已连接到GPS服务", .endl]] <|
  (recvLoop (uninit 1025 env.garbage) env.recvs).andThen fun _ =>
  Run.emit [.closesocket, .WSACleanup] (Run.ret ())

/-! ## `main` -/

/-- The function `main` (lines 166-181). -/
def main (env : Env) : Run Int :=
  Run.emit [.cout [.lit "GPS数据接收客户端启动", .endl],
            .enter .setup_adb_forward] <|
  (setup_adb_forward env).andThen fun ok =>
  Run.emit [.leave .setup_adb_forward] <|
  if ok then
    Run.emit [.Sleep 1000,
              .cout [.lit "尝试连接到localhost:54321...", .endl],
              .enter .connect_to_gps] <|
    (connect_to_gps env).andThen fun _ =>
    Run.emit [.leave .connect_to_gps] (Run.ret 0)
  else
    Run.emit [.cout [.lit "由于ADB端口转发失败，无法继续执行", .endl]] (Run.ret 0)

/-! ## Observations on traces -/

/-- The answer ends the pipe loop: the read failed, or it gave no byte. -/
def PipeRead.isLast (r : PipeRead) : Bool := !r.ok || r.data.isEmpty

/-- The bytes of `data` before its first zero byte. -/
def untilZero (data : List Nat) : List Nat := data.takeWhile (fun b => b != 0)

/-- The data of a display unit: the `char*` operand of a statement
`std::cout << "收到GPS数据: " << buffer << std::endl;`. -/
def Event.dataPayload : Event → Option (List Nat)
  | .cout [.lit s, .text bytes, .endl] => if s = "收到GPS数据: " then some bytes else none
  | _ => none

/-- The data of the display units of a trace, in order. -/
def dataShown (t : List Event) : List (List Nat) := t.filterMap Event.dataPayload

/-- The text of a diagnostic line: the `std::string` operand of a statement
`std::cerr << "错误输出: " << result << std::endl;`. -/
def Event.diagnosticPayload : Event → Option (List Nat)
  | .cerr [.lit s, .text bytes, .endl] => if s = "错误输出: " then some bytes else none
  | _ => none

/-- The texts of the diagnostic lines of a trace, in order. -/
def diagnosticShown (t : List Event) : List (List Nat) := t.filterMap Event.diagnosticPayload

/-- The event is a call of `recv`. -/
def Event.isRecv : Event → Bool
  | .recv _ _ => true
  | _ => false

/-- The event is a call of `connect`. -/
def Event.isConnect : Event → Bool
  | .connect _ => true
  | _ => false

/-- The event is a call of `ReadFile`. -/
def Event.isReadFile : Event → Bool
  | .ReadFile _ _ _ => true
  | _ => false

/-- The event is a call of `Sleep`. -/
def Event.isSleep : Event → Bool
  | .Sleep _ => true
  | _ => false

/-- The event is the wait for the child process. -/
def Event.isWait : Event → Bool
  | .WaitForSingleObject => true
  | _ => false

/-- The event is the entry or the return of a function called by `main`. -/
def Event.isMarker : Event → Bool
  | .enter _ => true
  | .leave _ => true
  | _ => false

/-- The event is a call into winsock. -/
def Event.isNetworking : Event → Bool
  | .WSAStartup _ => true
  | .socket _ => true
  | .WSAGetLastError => true
  | .connect _ => true
  | .closesocket => true
  | .WSACleanup => true
  | .recv _ _ => true
  | _ => false

/-- The event is a write to `std::cerr`. -/
def Event.isCerr : Event → Bool
  | .cerr _ => true
  | _ => false

/-- The event is a write to `std::cout` or `std::cerr`. -/
def Event.isOutput : Event → Bool
  | .cout _ => true
  | .cerr _ => true
  | _ => false

/-- The number of `recv` calls of a trace. -/
def recvCalls (t : List Event) : Nat := t.countP Event.isRecv

/-- The number of `connect` calls of a trace. -/
def connectCalls (t : List Event) : Nat := t.countP Event.isConnect

/-- Every `recv` of the trace comes right after a `memset` of `size` bytes. -/
def zeroedBeforeEachRecv (size : Nat) : List Event → Bool
  | [] => true
  | .memset n :: .recv _ _ :: t => n == size && zeroedBeforeEachRecv size t
  | .recv _ _ :: _ => false
  | _ :: t => zeroedBeforeEachRecv size t

/-- A complete drain of the pipe: `ReadFile` calls asking for 4095 bytes, each
but the last successful with at least one byte, the last one failed or with
zero bytes. -/
def drainComplete (t : List Event) : Prop :=
  ∃ (body : List Event) (ok : Bool) (n : Nat),
    t = body ++ [.ReadFile 4095 ok n] ∧ (ok = false ∨ n = 0) ∧
    ∀ e ∈ body, ∃ k, 0 < k ∧ e = .ReadFile 4095 true k

/-! ## Resources -/

/-- What a function can hold: a handle, the socket, the Winsock context. -/
inductive Resource where
  | handle (h : Handle)
  | sock
  | winsock
  deriving DecidableEq

/-- The resources a platform call opens: a successful `CreatePipe` both pipe
ends, a successful `CreateProcessA` the process and thread handles, a
successful `socket` the socket, `WSAStartup` returning 0 the Winsock context. -/
def Event.acquired : Event → List Resource
  | .CreatePipe true => [.handle .hChildStdoutRd, .handle .hChildStdoutWr]
  | .CreateProcessA true => [.handle .hProcess, .handle .hThread]
  | .socket true => [.sock]
  | .WSAStartup ret => if ret = 0 then [.winsock] else []
  | _ => []

/-- The resource a platform call releases. -/
def Event.released : Event → Option Resource
  | .CloseHandle h => some (.handle h)
  | .closesocket => some .sock
  | .WSACleanup => some .winsock
  | _ => none

/-- The event is a release of a resource. -/
def Event.isRelease (e : Event) : Bool := e.released.isSome

/-- The event neither opens nor releases a resource. -/
def Event.isNeutral (e : Event) : Bool := e.released.isNone && e.acquired.isEmpty

/-- Follows the resources held along a trace, starting from `held`: `none` as
soon as a resource is released that is not held (released twice, or never
opened), otherwise what is still held at the end. -/
def account (held : List Resource) : List Event → Option (List Resource)
  | [] => some held
  | e :: t =>
    match e.released with
    | some r => if r ∈ held then account (held.erase r) t else none
    | none => account (e.acquired ++ held) t

/-- No resource is released that is not held, and nothing is held at the end. -/
def releasedExactlyOnce (t : List Event) : Prop := account [] t = some []

instance (t : List Event) : Decidable (releasedExactlyOnce t) := by
  unfold releasedExactlyOnce
  infer_instance

/-! ## The traces in closed form -/

/-- The event of one `ReadFile` of the pipe loop answered with `r`. -/
def readEvent (r : PipeRead) : Event :=
  .ReadFile 4095 r.ok (r.data.take 4095).length

/-- The events of one iteration of the socket loop whose `recv` is answered
with a positive count. -/
def shownEvents (r : RecvResult) : List Event :=
  [.memset 1025, .recv 1024 r.ret,
   .cout [.lit "收到GPS数据: ", .text (untilZero (r.data.take 1024)), .endl]]

/-- The events of `setup_adb_forward` up to the pipe loop, when the pipe, the
handle configuration and the process were all set up and the child ended. -/
def setupHead : List Event :=
  [.cout [.lit "设置ADB端口转发", .endl], .CreatePipe true, .SetHandleInformation true,
   .CreateProcessA true, .CloseHandle .hChildStdoutWr, .WaitForSingleObject,
   .GetExitCodeProcess]

/-- The events of `setup_adb_forward` after the pipe loop. -/
def setupTail (exitCode : Nat) (result : List Nat) : List Event :=
  [.CloseHandle .hProcess, .CloseHandle .hThread, .CloseHandle .hChildStdoutRd] ++
  if exitCode = 0 then [.cout [.lit "成功设置ADB端口转发", .endl]]
  else
    [.cerr [.lit "ADB端口转发设置失败，返回码: ", .num exitCode, .endl]] ++
    if result = [] then [] else [.cerr [.lit "错误输出: ", .text result, .endl]]

/-- The events of `connect_to_gps` up to the socket loop, when Winsock, the
socket and the connection were all set up. -/
def connectHead (connectRet : Int) : List Event :=
  [.WSAStartup 0, .socket true, .connect connectRet, .cout [.lit "已连接到GPS服务", .endl]]

/-- The events of `main` before the body of `setup_adb_forward`. -/
def mainHead : List Event :=
  [.cout [.lit "GPS数据接收客户端启动", .endl], .enter .setup_adb_forward]

/-- The events of `main` between the return of `setup_adb_forward` with `true`
and the body of `connect_to_gps`. -/
def mainBetween : List Event :=
  [.leave .setup_adb_forward, .Sleep 1000,
   .cout [.lit "尝试连接到localhost:54321...", .endl], .enter .connect_to_gps]

/-- The events of `main` after the body of `connect_to_gps`, by the outcome of
`connect_to_gps`. -/
def mainTail : Outcome Unit → List Event
  | .returned _ => [.leave .connect_to_gps]
  | _ => []

/-- The outcome of `main` once `setup_adb_forward` returned `true`, by the
outcome of `connect_to_gps`: `return 0;` when that one returned. -/
def mainOutcome : Outcome Unit → Outcome Int
  | .returned _ => .returned 0
  | .blocked => .blocked
  | .outOfBounds => .outOfBounds

/-! ## Environments -/

/-- The environment `env` with the answers `rs` to the `recv` calls. -/
def Env.withRecvs (env : Env) (rs : List RecvResult) : Env := { env with recvs := rs }

/-- The answers to `recv` of a peer that delivers `chunks`, one per call, and
then closes (`recv` returns 0). -/
def peerAnswers (chunks : List (List Nat)) : List RecvResult :=
  chunks.map (fun c => ⟨(c.length : Int), c⟩) ++ [⟨0, []⟩]

/-- The answers to `ReadFile` of a pipe that delivers `chunks`, one per call,
and then answers `last`. -/
def pipeAnswers (chunks : List (List Nat)) (last : PipeRead) : List PipeRead :=
  chunks.map (fun c => ⟨true, c⟩) ++ [last]

/-- A run in which `CreatePipe` fails. -/
def envNoPipe : Env where
  createPipe := false
  setHandleInformation := true
  createProcess := true
  lastError := 0
  childTerminates := true
  exitCode := 0
  pipeReads := []
  wsaStartup := 0
  socketOk := true
  wsaLastError := 0
  connectRet := 0
  recvs := []
  garbage := fun _ => 0

/-- A run in which `adb` prints "device not found" (16 bytes, in one read) and
exits with status 1. -/
def envDeviceNotFound : Env where
  createPipe := true
  setHandleInformation := true
  createProcess := true
  lastError := 0
  childTerminates := true
  exitCode := 1
  pipeReads := [⟨true, [100, 101, 118, 105, 99, 101, 32, 110, 111, 116, 32, 102, 111, 117, 110, 100]⟩, ⟨false, []⟩]
  wsaStartup := 0
  socketOk := true
  wsaLastError := 0
  connectRet := 0
  recvs := []
  garbage := fun i => i % 251 + 1

/-- A run in which `adb` prints nothing and exits with status 0, and the peer
sends "$GPGGA" and "\r\n" in two reads and closes. -/
def envStream : Env where
  createPipe := true
  setHandleInformation := true
  createProcess := true
  lastError := 0
  childTerminates := true
  exitCode := 0
  pipeReads := [⟨false, []⟩]
  wsaStartup := 0
  socketOk := true
  wsaLastError := 0
  connectRet := 0
  recvs := [⟨6, [36, 71, 80, 71, 71, 65]⟩, ⟨2, [13, 10]⟩, ⟨0, []⟩]
  garbage := fun i => i % 251 + 1

/-- A run in which `connect` fails. -/
def envRefused : Env where
  createPipe := true
  setHandleInformation := true
  createProcess := true
  lastError := 0
  childTerminates := true
  exitCode := 0
  pipeReads := [⟨false, []⟩]
  wsaStartup := 0
  socketOk := true
  wsaLastError := 10061
  connectRet := -1
  recvs := [⟨3, [65, 66, 67]⟩, ⟨0, []⟩]
  garbage := fun i => i % 251 + 1

/-- A run in which the peer closes at once. -/
def envClosedAtOnce : Env where
  createPipe := true
  setHandleInformation := true
  createProcess := true
  lastError := 0
  childTerminates := true
  exitCode := 0
  pipeReads := [⟨false, []⟩]
  wsaStartup := 0
  socketOk := true
  wsaLastError := 0
  connectRet := 0
  recvs := [⟨0, []⟩]
  garbage := fun i => i % 251 + 1

/-- A run in which the peer sends the three bytes 65, 0, 66 in one read and
closes. -/
def envNulStream : Env where
  createPipe := true
  setHandleInformation := true
  createProcess := true
  lastError := 0
  childTerminates := true
  exitCode := 0
  pipeReads := [⟨false, []⟩]
  wsaStartup := 0
  socketOk := true
  wsaLastError := 0
  connectRet := 0
  recvs := [⟨3, [65, 0, 66]⟩, ⟨0, []⟩]
  garbage := fun i => i % 251 + 1

/-- A run in which `adb` prints the three bytes 100, 0, 101 (one read) and
exits with status 1. -/
def envNulOutput : Env where
  createPipe := true
  setHandleInformation := true
  createProcess := true
  lastError := 0
  childTerminates := true
  exitCode := 1
  pipeReads := [⟨true, [100, 0, 101]⟩, ⟨false, []⟩]
  wsaStartup := 0
  socketOk := true
  wsaLastError := 0
  connectRet := 0
  recvs := []
  garbage := fun i => i % 251 + 1

/-! ## Buffer steps -/

theorem cstr_append_zero (l r : List Nat) :
    cstr (l ++ 0 :: r) = some (l.takeWhile (fun b => b != 0)) := by
  unfold cstr
  have hmem : (0 : Nat) ∈ l ++ 0 :: r := by simp
  rw [if_pos hmem]
  congr 1
  induction l with
  | nil => simp
  | cons a l ih =>
    by_cases ha : a = 0
    · subst ha; simp
    · simp [List.takeWhile_cons, ha, ih]

theorem deliver_of_le (buffer : List Nat) (len : Nat) (data : List Nat)
    (hlen : len ≤ buffer.length) :
    deliver buffer len data =
      some (data.take len ++ buffer.drop (data.take len).length, (data.take len).length) := by
  unfold deliver
  rw [if_pos hlen]

theorem take_length_le (data : List Nat) (len : Nat) : (data.take len).length ≤ len := by
  simp [List.length_take]

theorem take_length_eq_zero_iff (data : List Nat) (n : Nat) (hn : 0 < n) :
    (data.take n).length = 0 ↔ data = [] := by
  cases data with
  | nil => simp
  | cons a t =>
    cases n with
    | zero => omega
    | succ n => simp

/-- One `ReadFile` into a buffer of `n + 1` bytes asking for `n`, the
terminator write and the C-string read, all stay inside the buffer. -/
theorem read_step (buffer : List Nat) (n : Nat) (hlen : buffer.length = n + 1)
    (data : List Nat) :
    ∃ buffer1 buffer2,
      deliver buffer (buffer.length - 1) data = some (buffer1, (data.take n).length) ∧
      storeAt buffer1 (data.take n).length 0 = some buffer2 ∧
      buffer2.length = n + 1 ∧
      cstr buffer2 = some ((data.take n).takeWhile (fun b => b != 0)) := by
  have hreq : buffer.length - 1 = n := by omega
  have hk : (data.take n).length ≤ n := take_length_le data n
  have hdrop : (buffer.drop (data.take n).length) ≠ [] := by
    intro h
    have := congrArg List.length h
    simp only [List.length_drop, List.length_nil] at this
    omega
  obtain ⟨x, tl, hx⟩ := List.exists_cons_of_ne_nil hdrop
  refine ⟨data.take n ++ buffer.drop (data.take n).length, data.take n ++ 0 :: tl, ?_, ?_, ?_, ?_⟩
  · rw [hreq]; exact deliver_of_le buffer n data (by omega)
  · unfold storeAt
    have hin : (data.take n).length < (data.take n ++ buffer.drop (data.take n).length).length := by
      rw [hx]; simp
    rw [if_pos hin, hx]
    simp
  · have h1 : (buffer.drop (data.take n).length).length = tl.length + 1 := by rw [hx]; simp
    simp only [List.length_append, List.length_cons]
    simp only [List.length_drop] at h1
    omega
  · exact cstr_append_zero _ _

/-- One `recv` of at most `n` bytes into a zeroed buffer of `n + 1` bytes: the
last byte stays zero and the C string is the delivered bytes up to their first
zero. -/
theorem recv_step (buffer : List Nat) (n : Nat) (hlen : buffer.length = n + 1)
    (data : List Nat) :
    ∃ buffer1,
      deliver (zeroed buffer) n data = some (buffer1, (data.take n).length) ∧
      buffer1.length = n + 1 ∧
      buffer1[n]? = some 0 ∧
      cstr buffer1 = some ((data.take n).takeWhile (fun b => b != 0)) := by
  have hk : (data.take n).length ≤ n := take_length_le data n
  have hz : zeroed buffer = List.replicate (n + 1) 0 := by unfold zeroed; rw [hlen]
  have hdrop : (List.replicate (n + 1) 0).drop (data.take n).length
      = 0 :: List.replicate (n - (data.take n).length) 0 := by
    rw [List.drop_replicate]
    have : n + 1 - (data.take n).length = (n - (data.take n).length) + 1 := by omega
    rw [this, List.replicate_succ]
  refine ⟨data.take n ++ 0 :: List.replicate (n - (data.take n).length) 0, ?_, ?_, ?_, ?_⟩
  · rw [hz, deliver_of_le _ n data (by simp), hdrop]
  · simp only [List.length_append, List.length_cons, List.length_replicate]; omega
  · rw [List.getElem?_append_right (by omega)]
    generalize hm : n - (data.take n).length = m
    cases m with
    | zero => simp
    | succ m => simp [List.getElem?_replicate]
  · exact cstr_append_zero _ _

theorem uninit_length (n : Nat) (g : Nat → Nat) : (uninit n g).length = n := by
  simp [uninit]

theorem untilZero_length_le (data : List Nat) : (untilZero data).length ≤ data.length := by
  unfold untilZero
  exact (List.takeWhile_sublist _).length_le

theorem untilZero_of_not_mem (c : List Nat) (h : 0 ∉ c) : untilZero c = c := by
  unfold untilZero
  rw [List.takeWhile_eq_self_iff]
  intro x hx
  have : x ≠ 0 := fun h0 => h (h0 ▸ hx)
  simpa using this

theorem map_untilZero_of_not_mem (chunks : List (List Nat)) (h : ∀ c ∈ chunks, 0 ∉ c) :
    chunks.map untilZero = chunks := by
  induction chunks with
  | nil => rfl
  | cons c cs ih =>
    rw [List.map_cons, untilZero_of_not_mem c (h c (by simp)),
      ih (fun x hx => h x (by simp [hx]))]

theorem flatten_map_untilZero_of_not_mem (chunks : List (List Nat))
    (h : ∀ c ∈ chunks, 0 ∉ c) : (chunks.map untilZero).flatten = chunks.flatten := by
  rw [map_untilZero_of_not_mem chunks h]

/-! ## One iteration of each loop -/

theorem readLoop_cons_last (buffer result : List Nat) (hlen : buffer.length = 4096)
    (r : PipeRead) (rest : List PipeRead) (hlast : r.isLast = true) :
    readLoop buffer result (r :: rest)
      = ⟨[.ReadFile 4095 r.ok (r.data.take 4095).length], .returned result⟩ := by
  obtain ⟨b1, b2, hd, -, -, -⟩ := read_step buffer 4095 hlen r.data
  have hreq : buffer.length - 1 = 4095 := by omega
  have hcond : (r.ok && decide ((r.data.take 4095).length > 0)) = false := by
    unfold PipeRead.isLast at hlast
    cases hok : r.ok with
    | false => simp
    | true =>
      rw [hok] at hlast
      simp only [Bool.not_true, Bool.false_or, List.isEmpty_iff] at hlast
      simp [hlast]
  unfold readLoop
  rw [hd]
  simp only [hreq, hcond]
  rfl

theorem readLoop_cons_more (buffer result : List Nat) (hlen : buffer.length = 4096)
    (r : PipeRead) (rest : List PipeRead) (hmore : r.isLast = false) :
    ∃ buffer2, buffer2.length = 4096 ∧
      readLoop buffer result (r :: rest)
        = Run.emit [.ReadFile 4095 true (r.data.take 4095).length]
            (readLoop buffer2 (result ++ (r.data.take 4095).takeWhile (fun b => b != 0)) rest) := by
  obtain ⟨b1, b2, hd, hs, hl2, hc⟩ := read_step buffer 4095 hlen r.data
  have hreq : buffer.length - 1 = 4095 := by omega
  unfold PipeRead.isLast at hmore
  simp only [Bool.or_eq_false_iff, Bool.not_eq_false', List.isEmpty_eq_false_iff_exists_mem] at hmore
  obtain ⟨hok, x, hx⟩ := hmore
  have hne : r.data ≠ [] := List.ne_nil_of_mem hx
  have hpos : (r.data.take 4095).length > 0 := by
    have := (take_length_eq_zero_iff r.data 4095 (by omega)).not.mpr hne
    omega
  refine ⟨b2, hl2, ?_⟩
  conv_lhs => unfold readLoop
  rw [hd]
  simp only [hreq, hok, hpos, decide_True, Bool.and_self, if_true, hs, hc]

theorem recvLoop_cons_nonpos (buffer : List Nat) (hlen : buffer.length = 1025)
    (r : RecvResult) (rest : List RecvResult) (h : r.ret ≤ 0) :
    recvLoop buffer (r :: rest) = ⟨[.memset 1025, .recv 1024 r.ret], .returned ()⟩ := by
  obtain ⟨b1, hd, -, -, -⟩ := recv_step buffer 1024 hlen r.data
  unfold recvLoop
  rw [hd]
  simp only [h, if_true, hlen]
  rfl

theorem recvLoop_cons_pos (buffer : List Nat) (hlen : buffer.length = 1025)
    (r : RecvResult) (rest : List RecvResult) (h : 0 < r.ret) :
    ∃ buffer1, buffer1.length = 1025 ∧
      recvLoop buffer (r :: rest)
        = Run.emit [.memset 1025, .recv 1024 r.ret,
                    .cout [.lit "收到GPS数据: ",
                           .text ((r.data.take 1024).takeWhile (fun b => b != 0)), .endl]]
            (recvLoop buffer1 rest) := by
  obtain ⟨b1, hd, hl1, -, hc⟩ := recv_step buffer 1024 hlen r.data
  refine ⟨b1, hl1, ?_⟩
  conv_lhs => unfold recvLoop
  rw [hd]
  have h2 : ¬ r.ret ≤ 0 := by omega
  simp only [h2, if_false, hc, hlen]
  rfl

/-! ## The loops in closed form -/

theorem split_at_first {α : Type} (p : α → Bool) (l : List α) :
    (∀ x ∈ l, p x = false) ∨
    ∃ front x back, l = front ++ x :: back ∧ (∀ y ∈ front, p y = false) ∧ p x = true := by
  induction l with
  | nil => left; simp
  | cons a t ih =>
    cases ha : p a with
    | true => right; exact ⟨[], a, t, rfl, by simp, ha⟩
    | false =>
      rcases ih with h | ⟨front, x, back, hl, hf, hx⟩
      · left
        intro y hy
        rcases List.mem_cons.mp hy with rfl | hy
        · exact ha
        · exact h y hy
      · right
        refine ⟨a :: front, x, back, by rw [hl]; rfl, ?_, hx⟩
        intro y hy
        rcases List.mem_cons.mp hy with rfl | hy
        · exact ha
        · exact hf y hy

theorem readLoop_chunks (more : List PipeRead) :
    ∀ (buffer result : List Nat), buffer.length = 4096 →
    (∀ r ∈ more, r.isLast = false) →
    ∀ (last : PipeRead) (rest : List PipeRead), last.isLast = true →
    readLoop buffer result (more ++ last :: rest)
      = ⟨more.map readEvent ++ [readEvent last],
         .returned (result ++ (more.map fun r => untilZero (r.data.take 4095)).flatten)⟩ := by
  induction more with
  | nil =>
    intro buffer result hlen _ last rest hlast
    simp [readLoop_cons_last buffer result hlen last rest hlast, readEvent]
  | cons r more ih =>
    intro buffer result hlen hmore last rest hlast
    have hr : r.isLast = false := hmore r (by simp)
    obtain ⟨b2, hl2, heq⟩ := readLoop_cons_more buffer result hlen r (more ++ last :: rest) hr
    have hok : r.ok = true := by
      unfold PipeRead.isLast at hr
      simp only [Bool.or_eq_false_iff, Bool.not_eq_false'] at hr
      exact hr.1
    rw [List.cons_append, heq, ih b2 _ hl2 (fun x hx => hmore x (by simp [hx])) last rest hlast]
    simp [Run.emit, readEvent, untilZero, hok, List.append_assoc]

theorem readLoop_blocked (rs : List PipeRead) :
    ∀ (buffer result : List Nat), buffer.length = 4096 →
    (∀ r ∈ rs, r.isLast = false) →
    readLoop buffer result rs = ⟨rs.map readEvent, .blocked⟩ := by
  induction rs with
  | nil => intro buffer result _ _; rfl
  | cons r rs ih =>
    intro buffer result hlen hmore
    have hr : r.isLast = false := hmore r (by simp)
    obtain ⟨b2, hl2, heq⟩ := readLoop_cons_more buffer result hlen r rs hr
    have hok : r.ok = true := by
      unfold PipeRead.isLast at hr
      simp only [Bool.or_eq_false_iff, Bool.not_eq_false'] at hr
      exact hr.1
    rw [heq, ih b2 _ hl2 (fun x hx => hmore x (by simp [hx]))]
    simp [Run.emit, readEvent, hok]

theorem recvLoop_chunks (pos : List RecvResult) :
    ∀ (buffer : List Nat), buffer.length = 1025 →
    (∀ r ∈ pos, 0 < r.ret) →
    ∀ (last : RecvResult) (rest : List RecvResult), last.ret ≤ 0 →
    recvLoop buffer (pos ++ last :: rest)
      = ⟨(pos.map shownEvents).flatten ++ [.memset 1025, .recv 1024 last.ret], .returned ()⟩ := by
  induction pos with
  | nil =>
    intro buffer hlen _ last rest hlast
    simp [recvLoop_cons_nonpos buffer hlen last rest hlast]
  | cons r pos ih =>
    intro buffer hlen hpos last rest hlast
    obtain ⟨b1, hl1, heq⟩ := recvLoop_cons_pos buffer hlen r (pos ++ last :: rest) (hpos r (by simp))
    rw [List.cons_append, heq, ih b1 hl1 (fun x hx => hpos x (by simp [hx])) last rest hlast]
    simp [Run.emit, shownEvents, untilZero]

theorem recvLoop_blocked (rs : List RecvResult) :
    ∀ (buffer : List Nat), buffer.length = 1025 →
    (∀ r ∈ rs, 0 < r.ret) →
    recvLoop buffer rs = ⟨(rs.map shownEvents).flatten ++ [.memset 1025], .blocked⟩ := by
  induction rs with
  | nil => intro buffer hlen _; simp [recvLoop, hlen]
  | cons r rs ih =>
    intro buffer hlen hpos
    obtain ⟨b1, hl1, heq⟩ := recvLoop_cons_pos buffer hlen r rs (hpos r (by simp))
    rw [heq, ih b1 hl1 (fun x hx => hpos x (by simp [hx]))]
    simp [Run.emit, shownEvents, untilZero]

/-! ## The functions in closed form -/

theorem setup_noPipe (env : Env) (h : env.createPipe = false) :
    setup_adb_forward env
      = ⟨[.cout [.lit "设置ADB端口转发", .endl], .CreatePipe false,
          .cerr [.lit "创建管道失败", .endl]], .returned false⟩ := by
  simp [setup_adb_forward, h, Run.emit, Run.ret]

theorem setup_noInherit (env : Env) (h1 : env.createPipe = true)
    (h2 : env.setHandleInformation = false) :
    setup_adb_forward env
      = ⟨[.cout [.lit "设置ADB端口转发", .endl], .CreatePipe true, .SetHandleInformation false,
          .cerr [.lit "设置句柄信息失败", .endl],
          .CloseHandle .hChildStdoutRd, .CloseHandle .hChildStdoutWr], .returned false⟩ := by
  simp [setup_adb_forward, h1, h2, Run.emit, Run.ret]

theorem setup_noProcess (env : Env) (h1 : env.createPipe = true)
    (h2 : env.setHandleInformation = true) (h3 : env.createProcess = false) :
    setup_adb_forward env
      = ⟨[.cout [.lit "设置ADB端口转发", .endl], .CreatePipe true, .SetHandleInformation true,
          .CreateProcessA false, .GetLastError,
          .cerr [.lit "创建进程失败，错误码: ", .num env.lastError, .endl],
          .CloseHandle .hChildStdoutRd, .CloseHandle .hChildStdoutWr], .returned false⟩ := by
  simp [setup_adb_forward, h1, h2, h3, Run.emit, Run.ret]

theorem setup_waitForever (env : Env) (h1 : env.createPipe = true)
    (h2 : env.setHandleInformation = true) (h3 : env.createProcess = true)
    (h4 : env.childTerminates = false) :
    setup_adb_forward env
      = ⟨[.cout [.lit "设置ADB端口转发", .endl], .CreatePipe true, .SetHandleInformation true,
          .CreateProcessA true, .CloseHandle .hChildStdoutWr], .blocked⟩ := by
  simp [setup_adb_forward, h1, h2, h3, h4, Run.emit]

theorem setup_stuck (env : Env) (h1 : env.createPipe = true)
    (h2 : env.setHandleInformation = true) (h3 : env.createProcess = true)
    (h4 : env.childTerminates = true) (hall : ∀ r ∈ env.pipeReads, r.isLast = false) :
    setup_adb_forward env = ⟨setupHead ++ env.pipeReads.map readEvent, .blocked⟩ := by
  have hloop := readLoop_blocked env.pipeReads (uninit 4096 env.garbage) []
    (uninit_length _ _) hall
  simp [setup_adb_forward, h1, h2, h3, h4, Run.emit, Run.andThen, hloop, setupHead]

theorem setup_drained (env : Env) (h1 : env.createPipe = true)
    (h2 : env.setHandleInformation = true) (h3 : env.createProcess = true)
    (h4 : env.childTerminates = true) (more : List PipeRead) (last : PipeRead)
    (rest : List PipeRead) (hreads : env.pipeReads = more ++ last :: rest)
    (hmore : ∀ r ∈ more, r.isLast = false) (hlast : last.isLast = true) :
    setup_adb_forward env
      = ⟨setupHead ++ (more.map readEvent ++ [readEvent last]) ++
           setupTail env.exitCode (more.map fun r => untilZero (r.data.take 4095)).flatten,
         .returned (decide (env.exitCode = 0))⟩ := by
  have hloop := readLoop_chunks more (uninit 4096 env.garbage) []
    (uninit_length _ _) hmore last rest hlast
  rw [← hreads] at hloop
  by_cases he : env.exitCode = 0
  · simp [setup_adb_forward, h1, h2, h3, h4, Run.emit, Run.andThen, hloop, setupHead,
      setupTail, he, Run.ret]
  · by_cases ht : (more.map fun r => untilZero (r.data.take 4095)).flatten = []
    · simp [setup_adb_forward, h1, h2, h3, h4, Run.emit, Run.andThen, hloop, setupHead,
        setupTail, he, Run.ret, ht]
    · simp [setup_adb_forward, h1, h2, h3, h4, Run.emit, Run.andThen, hloop, setupHead,
        setupTail, he, Run.ret, ht]

theorem connect_noWinsock (env : Env) (h : env.wsaStartup ≠ 0) :
    connect_to_gps env
      = ⟨[.WSAStartup env.wsaStartup,
          .cerr [.lit "WSAStartup失败: ", .num env.wsaStartup, .endl]], .returned ()⟩ := by
  simp [connect_to_gps, h, Run.emit, Run.ret]

theorem connect_noSocket (env : Env) (h1 : env.wsaStartup = 0) (h2 : env.socketOk = false) :
    connect_to_gps env
      = ⟨[.WSAStartup 0, .socket false, .WSAGetLastError,
          .cerr [.lit "套接字创建失败: ", .num env.wsaLastError, .endl],
          .WSACleanup], .returned ()⟩ := by
  simp [connect_to_gps, h1, h2, Run.emit, Run.ret]

theorem connect_refused (env : Env) (h1 : env.wsaStartup = 0) (h2 : env.socketOk = true)
    (h3 : env.connectRet = SOCKET_ERROR) :
    connect_to_gps env
      = ⟨[.WSAStartup 0, .socket true, .connect SOCKET_ERROR, .WSAGetLastError,
          .cerr [.lit "连接失败: ", .num env.wsaLastError, .endl],
          .closesocket, .WSACleanup], .returned ()⟩ := by
  simp [connect_to_gps, h1, h2, h3, Run.emit, Run.ret]

theorem connect_stuck (env : Env) (h1 : env.wsaStartup = 0) (h2 : env.socketOk = true)
    (h3 : env.connectRet ≠ SOCKET_ERROR) (hall : ∀ r ∈ env.recvs, 0 < r.ret) :
    connect_to_gps env
      = ⟨connectHead env.connectRet ++ ((env.recvs.map shownEvents).flatten ++ [.memset 1025]),
         .blocked⟩ := by
  have hloop := recvLoop_blocked env.recvs (uninit 1025 env.garbage) (uninit_length _ _) hall
  simp [connect_to_gps, h1, h2, h3, Run.emit, Run.andThen, hloop, connectHead]

theorem connect_closed (env : Env) (h1 : env.wsaStartup = 0) (h2 : env.socketOk = true)
    (h3 : env.connectRet ≠ SOCKET_ERROR) (pos : List RecvResult) (last : RecvResult)
    (rest : List RecvResult) (hrecvs : env.recvs = pos ++ last :: rest)
    (hpos : ∀ r ∈ pos, 0 < r.ret) (hlast : last.ret ≤ 0) :
    connect_to_gps env
      = ⟨connectHead env.connectRet ++
           ((pos.map shownEvents).flatten ++ [.memset 1025, .recv 1024 last.ret]) ++
           [.closesocket, .WSACleanup],
         .returned ()⟩ := by
  have hloop := recvLoop_chunks pos (uninit 1025 env.garbage) (uninit_length _ _) hpos
    last rest hlast
  rw [← hrecvs] at hloop
  simp [connect_to_gps, h1, h2, h3, Run.emit, Run.andThen, hloop, connectHead, Run.ret]

theorem main_setup_false (env : Env) (h : (setup_adb_forward env).outcome = .returned false) :
    main env = ⟨mainHead ++ (setup_adb_forward env).trace ++
                 [.leave .setup_adb_forward,
                  .cout [.lit "由于ADB端口转发失败，无法继续执行", .endl]],
               .returned 0⟩ := by
  simp [main, Run.andThen, Run.emit, Run.ret, h, mainHead]

theorem main_setup_blocked (env : Env) (h : (setup_adb_forward env).outcome = .blocked) :
    main env = ⟨mainHead ++ (setup_adb_forward env).trace, .blocked⟩ := by
  simp [main, Run.andThen, Run.emit, h, mainHead]

theorem main_setup_outOfBounds (env : Env)
    (h : (setup_adb_forward env).outcome = .outOfBounds) :
    main env = ⟨mainHead ++ (setup_adb_forward env).trace, .outOfBounds⟩ := by
  simp [main, Run.andThen, Run.emit, h, mainHead]

theorem main_setup_true (env : Env) (h : (setup_adb_forward env).outcome = .returned true) :
    main env = ⟨mainHead ++ (setup_adb_forward env).trace ++ mainBetween ++
                 (connect_to_gps env).trace ++ mainTail (connect_to_gps env).outcome,
               mainOutcome (connect_to_gps env).outcome⟩ := by
  cases hc : (connect_to_gps env).outcome <;>
    simp [main, Run.andThen, Run.emit, Run.ret, h, hc, mainHead, mainBetween, mainTail,
      mainOutcome]

theorem setup_elim (env : Env) (P : Run Bool → Prop)
    (hPipe : P ⟨[.cout [.lit "设置ADB端口转发", .endl], .CreatePipe false,
                 .cerr [.lit "创建管道失败", .endl]], .returned false⟩)
    (hInherit : P ⟨[.cout [.lit "设置ADB端口转发", .endl], .CreatePipe true,
                    .SetHandleInformation false, .cerr [.lit "设置句柄信息失败", .endl],
                    .CloseHandle .hChildStdoutRd, .CloseHandle .hChildStdoutWr],
                   .returned false⟩)
    (hProcess : P ⟨[.cout [.lit "设置ADB端口转发", .endl], .CreatePipe true,
                    .SetHandleInformation true, .CreateProcessA false, .GetLastError,
                    .cerr [.lit "创建进程失败，错误码: ", .num env.lastError, .endl],
                    .CloseHandle .hChildStdoutRd, .CloseHandle .hChildStdoutWr],
                   .returned false⟩)
    (hWait : P ⟨[.cout [.lit "设置ADB端口转发", .endl], .CreatePipe true,
                 .SetHandleInformation true, .CreateProcessA true,
                 .CloseHandle .hChildStdoutWr], .blocked⟩)
    (hStuck : ∀ rs : List PipeRead, (∀ r ∈ rs, r.isLast = false) →
      P ⟨setupHead ++ rs.map readEvent, .blocked⟩)
    (hDrained : ∀ (more : List PipeRead) (last : PipeRead),
      (∀ r ∈ more, r.isLast = false) → last.isLast = true →
      P ⟨setupHead ++ (more.map readEvent ++ [readEvent last]) ++
           setupTail env.exitCode (more.map fun r => untilZero (r.data.take 4095)).flatten,
         .returned (decide (env.exitCode = 0))⟩) :
    P (setup_adb_forward env) := by
  cases h1 : env.createPipe with
  | false => rw [setup_noPipe env h1]; exact hPipe
  | true =>
    cases h2 : env.setHandleInformation with
    | false => rw [setup_noInherit env h1 h2]; exact hInherit
    | true =>
      cases h3 : env.createProcess with
      | false => rw [setup_noProcess env h1 h2 h3]; exact hProcess
      | true =>
        cases h4 : env.childTerminates with
        | false => rw [setup_waitForever env h1 h2 h3 h4]; exact hWait
        | true =>
          rcases split_at_first PipeRead.isLast env.pipeReads with hall | ⟨more, last, rest, hr, hm, hl⟩
          · rw [setup_stuck env h1 h2 h3 h4 hall]; exact hStuck _ hall
          · rw [setup_drained env h1 h2 h3 h4 more last rest hr hm hl]; exact hDrained more last hm hl

theorem connect_elim (env : Env) (P : Run Unit → Prop)
    (hWinsock : env.wsaStartup ≠ 0 →
      P ⟨[.WSAStartup env.wsaStartup,
          .cerr [.lit "WSAStartup失败: ", .num env.wsaStartup, .endl]], .returned ()⟩)
    (hSocket : P ⟨[.WSAStartup 0, .socket false, .WSAGetLastError,
                   .cerr [.lit "套接字创建失败: ", .num env.wsaLastError, .endl],
                   .WSACleanup], .returned ()⟩)
    (hRefused : P ⟨[.WSAStartup 0, .socket true, .connect SOCKET_ERROR, .WSAGetLastError,
                    .cerr [.lit "连接失败: ", .num env.wsaLastError, .endl],
                    .closesocket, .WSACleanup], .returned ()⟩)
    (hStuck : ∀ rs : List RecvResult, (∀ r ∈ rs, 0 < r.ret) →
      P ⟨connectHead env.connectRet ++ ((rs.map shownEvents).flatten ++ [.memset 1025]),
         .blocked⟩)
    (hClosed : ∀ (pos : List RecvResult) (last : RecvResult),
      (∀ r ∈ pos, 0 < r.ret) → last.ret ≤ 0 →
      P ⟨connectHead env.connectRet ++
           ((pos.map shownEvents).flatten ++ [.memset 1025, .recv 1024 last.ret]) ++
           [.closesocket, .WSACleanup], .returned ()⟩) :
    P (connect_to_gps env) := by
  by_cases h1 : env.wsaStartup = 0
  · cases h2 : env.socketOk with
    | false => rw [connect_noSocket env h1 h2]; exact hSocket
    | true =>
      by_cases h3 : env.connectRet = SOCKET_ERROR
      · rw [connect_refused env h1 h2 h3]; exact hRefused
      · rcases split_at_first (fun r : RecvResult => decide (r.ret ≤ 0)) env.recvs with
          hall | ⟨pos, last, rest, hr, hp, hl⟩
        · have hall2 : ∀ r ∈ env.recvs, 0 < r.ret := fun r hr => by
            have := hall r hr
            simp only [decide_eq_false_iff_not, not_le] at this
            exact this
          rw [connect_stuck env h1 h2 h3 hall2]; exact hStuck _ hall2
        · have hp2 : ∀ r ∈ pos, 0 < r.ret := fun r hr => by
            have := hp r hr
            simp only [decide_eq_false_iff_not, not_le] at this
            exact this
          have hl2 : last.ret ≤ 0 := by simpa using hl
          rw [connect_closed env h1 h2 h3 pos last rest hr hp2 hl2]; exact hClosed pos last hp2 hl2
  · rw [connect_noWinsock env h1]; exact hWinsock h1

theorem setup_elim_script (env : Env) (P : Run Bool → Prop)
    (hFail : ∀ t, (∀ e ∈ t, e.isReadFile = false) → P ⟨t, .returned false⟩)
    (hWait : ∀ t, (∀ e ∈ t, e.isReadFile = false) → P ⟨t, .blocked⟩)
    (hStuck : P ⟨setupHead ++ env.pipeReads.map readEvent, .blocked⟩)
    (hDrained : ∀ (more : List PipeRead) (last : PipeRead) (rest : List PipeRead),
      env.pipeReads = more ++ last :: rest →
      P ⟨setupHead ++ (more.map readEvent ++ [readEvent last]) ++
           setupTail env.exitCode (more.map fun r => untilZero (r.data.take 4095)).flatten,
         .returned (decide (env.exitCode = 0))⟩) :
    P (setup_adb_forward env) := by
  cases h1 : env.createPipe with
  | false => rw [setup_noPipe env h1]; exact hFail _ (by decide)
  | true =>
    cases h2 : env.setHandleInformation with
    | false => rw [setup_noInherit env h1 h2]; exact hFail _ (by decide)
    | true =>
      cases h3 : env.createProcess with
      | false =>
        rw [setup_noProcess env h1 h2 h3]
        exact hFail _ (by simp [Event.isReadFile])
      | true =>
        cases h4 : env.childTerminates with
        | false => rw [setup_waitForever env h1 h2 h3 h4]; exact hWait _ (by decide)
        | true =>
          rcases split_at_first PipeRead.isLast env.pipeReads with
            hall | ⟨more, last, rest, hr, hm, hl⟩
          · rw [setup_stuck env h1 h2 h3 h4 hall]; exact hStuck
          · rw [setup_drained env h1 h2 h3 h4 more last rest hr hm hl]
            exact hDrained more last rest hr

theorem connect_elim_script (env : Env) (P : Run Unit → Prop)
    (hEarly : ∀ t, dataShown t = [] →
      (∀ e ∈ t, e.isRecv = false ∧ ∀ n, e ≠ .memset n) → P ⟨t, .returned ()⟩)
    (hStuck : P ⟨connectHead env.connectRet ++
                   ((env.recvs.map shownEvents).flatten ++ [.memset 1025]), .blocked⟩)
    (hClosed : ∀ (pos : List RecvResult) (last : RecvResult) (rest : List RecvResult),
      env.recvs = pos ++ last :: rest →
      P ⟨connectHead env.connectRet ++
           ((pos.map shownEvents).flatten ++ [.memset 1025, .recv 1024 last.ret]) ++
           [.closesocket, .WSACleanup], .returned ()⟩) :
    P (connect_to_gps env) := by
  by_cases h1 : env.wsaStartup = 0
  · cases h2 : env.socketOk with
    | false =>
      rw [connect_noSocket env h1 h2]
      exact hEarly _ rfl (by simp [Event.isRecv])
    | true =>
      by_cases h3 : env.connectRet = SOCKET_ERROR
      · rw [connect_refused env h1 h2 h3]
        exact hEarly _ rfl (by simp [Event.isRecv])
      · rcases split_at_first (fun r : RecvResult => decide (r.ret ≤ 0)) env.recvs with
          hall | ⟨pos, last, rest, hr, hp, hl⟩
        · have hall2 : ∀ r ∈ env.recvs, 0 < r.ret := fun r hr => by
            have := hall r hr
            simp only [decide_eq_false_iff_not, not_le] at this
            exact this
          rw [connect_stuck env h1 h2 h3 hall2]; exact hStuck
        · have hp2 : ∀ r ∈ pos, 0 < r.ret := fun r hr => by
            have := hp r hr
            simp only [decide_eq_false_iff_not, not_le] at this
            exact this
          have hl2 : last.ret ≤ 0 := by simpa using hl
          rw [connect_closed env h1 h2 h3 pos last rest hr hp2 hl2]
          exact hClosed pos last rest hr
  · rw [connect_noWinsock env h1]
    exact hEarly _ rfl (by simp [Event.isRecv])

theorem setup_returns_of_last (env : Env) (h1 : env.createPipe = true)
    (h2 : env.setHandleInformation = true) (h3 : env.createProcess = true)
    (h4 : env.childTerminates = true) (h5 : ∃ r ∈ env.pipeReads, r.isLast = true) :
    (setup_adb_forward env).outcome = .returned (decide (env.exitCode = 0)) := by
  rcases split_at_first PipeRead.isLast env.pipeReads with hall | ⟨more, last, rest, hr, hm, hl⟩
  · obtain ⟨r, hr, hlast⟩ := h5
    rw [hall r hr] at hlast
    exact absurd hlast (by decide)
  · rw [setup_drained env h1 h2 h3 h4 more last rest hr hm hl]

theorem envStream_setup :
    setup_adb_forward envStream
      = ⟨setupHead ++ ([].map readEvent ++ [readEvent ⟨false, []⟩]) ++ setupTail 0 [],
         .returned true⟩ :=
  setup_drained envStream rfl rfl rfl rfl [] ⟨false, []⟩ [] rfl (by simp) rfl

theorem envStream_connect :
    connect_to_gps envStream
      = ⟨connectHead 0 ++
           (([⟨6, [36, 71, 80, 71, 71, 65]⟩, ⟨2, [13, 10]⟩].map shownEvents).flatten ++
             [.memset 1025, .recv 1024 0]) ++ [.closesocket, .WSACleanup], .returned ()⟩ :=
  connect_closed envStream rfl rfl (by decide)
    [⟨6, [36, 71, 80, 71, 71, 65]⟩, ⟨2, [13, 10]⟩] ⟨0, []⟩ [] rfl (by decide) (by decide)

/-! ## Observations of the closed forms -/

theorem setup_trace_kinds (env : Env) :
    ∀ e ∈ (setup_adb_forward env).trace,
      e.isNetworking = false ∧ e.isMarker = false ∧ e.isSleep = false := by
  apply setup_elim env (fun run => ∀ e ∈ run.trace,
      e.isNetworking = false ∧ e.isMarker = false ∧ e.isSleep = false)
  · decide
  · decide
  · simp [Event.isNetworking, Event.isMarker, Event.isSleep]
  · decide
  · intro rs _
    simp [setupHead, readEvent, Event.isNetworking, Event.isMarker, Event.isSleep]
  · intro more last _ _
    unfold setupTail
    split_ifs <;>
      simp only [setupHead, List.forall_mem_append, List.forall_mem_cons, List.forall_mem_map] <;>
      simp [readEvent, Event.isNetworking, Event.isMarker, Event.isSleep]

theorem connect_trace_kinds (env : Env) :
    ∀ e ∈ (connect_to_gps env).trace,
      e.isMarker = false ∧ e.isSleep = false ∧ e.isReadFile = false ∧ e.isWait = false := by
  apply connect_elim env (fun run => ∀ e ∈ run.trace,
      e.isMarker = false ∧ e.isSleep = false ∧ e.isReadFile = false ∧ e.isWait = false)
  · intro _
    simp [Event.isMarker, Event.isSleep, Event.isReadFile, Event.isWait]
  · simp [Event.isMarker, Event.isSleep, Event.isReadFile, Event.isWait]
  · simp [Event.isMarker, Event.isSleep, Event.isReadFile, Event.isWait]
  · intro rs _
    simp only [connectHead, List.forall_mem_append, List.forall_mem_cons, List.forall_mem_map,
      List.forall_mem_flatten, shownEvents]
    simp [Event.isMarker, Event.isSleep, Event.isReadFile, Event.isWait]
  · intro pos last _ _
    simp only [connectHead, List.forall_mem_append, List.forall_mem_cons, List.forall_mem_map,
      List.forall_mem_flatten, shownEvents]
    simp [Event.isMarker, Event.isSleep, Event.isReadFile, Event.isWait]

theorem dataPayload_shown (bytes : List Nat) :
    Event.dataPayload (.cout [.lit "收到GPS数据: ", .text bytes, .endl]) = some bytes := by
  simp [Event.dataPayload]

theorem dataShown_append (a b : List Event) : dataShown (a ++ b) = dataShown a ++ dataShown b := by
  simp [dataShown, List.filterMap_append]

theorem dataShown_shownEvents (pos : List RecvResult) :
    dataShown (pos.map shownEvents).flatten
      = pos.map fun r => untilZero (r.data.take 1024) := by
  induction pos with
  | nil => rfl
  | cons r pos ih =>
    rw [List.map_cons, List.flatten_cons, dataShown_append, ih]
    simp [dataShown, shownEvents, List.filterMap_cons, dataPayload_shown, Event.dataPayload]

theorem recvCalls_shownEvents (pos : List RecvResult) :
    recvCalls (pos.map shownEvents).flatten = pos.length := by
  induction pos with
  | nil => rfl
  | cons r pos ih =>
    unfold recvCalls at ih ⊢
    rw [List.map_cons, List.flatten_cons, List.countP_append, ih]
    simp [shownEvents, List.countP_cons, Event.isRecv]
    omega

theorem filter_isRelease_shownEvents (pos : List RecvResult) :
    (pos.map shownEvents).flatten.filter Event.isRelease = [] := by
  induction pos with
  | nil => rfl
  | cons r pos ih =>
    rw [List.map_cons, List.flatten_cons, List.filter_append, ih]
    simp [shownEvents, Event.isRelease, Event.released]

theorem diagnosticShown_append (a b : List Event) :
    diagnosticShown (a ++ b) = diagnosticShown a ++ diagnosticShown b := by
  simp [diagnosticShown, List.filterMap_append]

theorem diagnosticShown_readEvents (rs : List PipeRead) :
    diagnosticShown (rs.map readEvent) = [] := by
  induction rs with
  | nil => rfl
  | cons r rs ih =>
    rw [List.map_cons, ← List.singleton_append, diagnosticShown_append, ih]
    rfl

theorem account_neutral (t : List Event) (h : ∀ e ∈ t, e.isNeutral = true)
    (held : List Resource) (u : List Event) :
    account held (t ++ u) = account held u := by
  induction t with
  | nil => rfl
  | cons e t ih =>
    have he := h e (by simp)
    unfold Event.isNeutral at he
    simp only [Bool.and_eq_true, Option.isNone_iff_eq_none, List.isEmpty_iff] at he
    rw [List.cons_append, account, he.1, he.2]
    exact ih (fun x hx => h x (by simp [hx]))

theorem readEvents_neutral (rs : List PipeRead) : ∀ e ∈ rs.map readEvent, e.isNeutral = true := by
  simp only [List.forall_mem_map]
  intro r _
  rfl

theorem shownEvents_neutral (rs : List RecvResult) :
    ∀ e ∈ (rs.map shownEvents).flatten, e.isNeutral = true := by
  simp only [List.forall_mem_flatten, List.forall_mem_map, shownEvents, List.forall_mem_cons]
  intro r _
  exact ⟨rfl, rfl, rfl, by simp⟩

theorem account_setupHead (u : List Event) :
    account [] (setupHead ++ u)
      = account [.handle .hProcess, .handle .hThread, .handle .hChildStdoutRd] u := by
  rfl

theorem account_connectHead (ret : Int) (u : List Event) :
    account [] (connectHead ret ++ u) = account [.sock, .winsock] u := by
  rfl

theorem account_setupTail (exitCode : Nat) (result : List Nat) :
    account [.handle .hProcess, .handle .hThread, .handle .hChildStdoutRd]
      (setupTail exitCode result) = some [] := by
  unfold setupTail
  split_ifs <;> rfl

theorem drainComplete_readEvents (more : List PipeRead) (last : PipeRead)
    (hmore : ∀ r ∈ more, r.isLast = false) (hlast : last.isLast = true) :
    drainComplete (more.map readEvent ++ [readEvent last]) := by
  refine ⟨more.map readEvent, last.ok, (last.data.take 4095).length, rfl, ?_, ?_⟩
  · unfold PipeRead.isLast at hlast
    cases hok : last.ok with
    | false => exact Or.inl rfl
    | true =>
      rw [hok] at hlast
      simp only [Bool.not_true, Bool.false_or, List.isEmpty_iff] at hlast
      right; simp [hlast]
  · simp only [List.forall_mem_map]
    intro r hr
    have h := hmore r hr
    unfold PipeRead.isLast at h
    simp only [Bool.or_eq_false_iff, Bool.not_eq_false', List.isEmpty_eq_false_iff_exists_mem] at h
    obtain ⟨hok, x, hx⟩ := h
    have hne : r.data ≠ [] := List.ne_nil_of_mem hx
    have hpos : (r.data.take 4095).length ≠ 0 :=
      (take_length_eq_zero_iff r.data 4095 (by omega)).not.mpr hne
    exact ⟨(r.data.take 4095).length, by omega, by simp [readEvent, hok]⟩

theorem zeroedBeforeEachRecv_shownEvents (pos : List RecvResult) (u : List Event) :
    zeroedBeforeEachRecv 1025 ((pos.map shownEvents).flatten ++ u)
      = zeroedBeforeEachRecv 1025 u := by
  induction pos with
  | nil => rfl
  | cons r pos ih =>
    rw [List.map_cons, List.flatten_cons, List.append_assoc]
    simp only [shownEvents, List.cons_append, List.nil_append, zeroedBeforeEachRecv]
    simpa using ih

theorem zeroedBeforeEachRecv_connectHead (ret : Int) (u : List Event) :
    zeroedBeforeEachRecv 1025 (connectHead ret ++ u) = zeroedBeforeEachRecv 1025 u := by
  simp [connectHead, zeroedBeforeEachRecv]

theorem zeroedBeforeEachRecv_of_no_recv (t : List Event)
    (h : ∀ e ∈ t, e.isRecv = false ∧ ∀ n, e ≠ .memset n) :
    zeroedBeforeEachRecv 1025 t = true := by
  induction t with
  | nil => rfl
  | cons e t ih =>
    have he := h e (by simp)
    have ht := ih (fun x hx => h x (by simp [hx]))
    cases e <;> simp_all [zeroedBeforeEachRecv, Event.isRecv]

theorem memset_recv_of_shownEvents (pos : List RecvResult) :
    ∀ e ∈ (pos.map shownEvents).flatten,
      (∀ n, e = .memset n → n = 1025) ∧ (∀ len ret, e = .recv len ret → len = 1024) := by
  simp only [List.forall_mem_flatten, List.forall_mem_map, shownEvents, List.forall_mem_cons]
  intro r _
  simp

theorem setup_true_trace (env : Env) (h : (setup_adb_forward env).outcome = .returned true) :
    ∃ drain, drainComplete drain ∧
      (setup_adb_forward env).trace = setupHead ++ drain ++ setupTail 0 [] := by
  revert h
  apply setup_elim env (fun run => run.outcome = .returned true →
    ∃ drain, drainComplete drain ∧ run.trace = setupHead ++ drain ++ setupTail 0 [])
  · intro h; simp at h
  · intro h; simp at h
  · intro h; simp at h
  · intro h; simp at h
  · intro rs _ h; simp at h
  · intro more last hmore hlast h
    have he : env.exitCode = 0 := by simpa using h
    refine ⟨_, drainComplete_readEvents more last hmore hlast, ?_⟩
    simp [he, setupTail]

theorem connect_peer_run (env : Env) (h1 : env.wsaStartup = 0)
    (h2 : env.socketOk = true) (h3 : env.connectRet ≠ SOCKET_ERROR)
    (chunks : List (List Nat)) (rest : List RecvResult)
    (hchunks : ∀ c ∈ chunks, c ≠ [] ∧ c.length ≤ 1024)
    (hrecvs : env.recvs = peerAnswers chunks ++ rest) :
    connect_to_gps env
      = ⟨connectHead env.connectRet ++
           (((chunks.map (fun c => (⟨(c.length : Int), c⟩ : RecvResult))).map shownEvents).flatten
              ++ [.memset 1025, .recv 1024 0]) ++
           [.closesocket, .WSACleanup], .returned ()⟩ ∧
    dataShown (connect_to_gps env).trace = chunks.map untilZero := by
  have hpos : ∀ r ∈ chunks.map (fun c => (⟨(c.length : Int), c⟩ : RecvResult)), 0 < r.ret := by
    intro r hr
    obtain ⟨c, hc, rfl⟩ := List.mem_map.mp hr
    have := (hchunks c hc).1
    have hlen : 0 < c.length := List.length_pos.mpr this
    show (0 : Int) < (c.length : Int)
    exact_mod_cast hlen
  have hrun := connect_closed env h1 h2 h3 _ ⟨0, []⟩ rest
    (by rw [hrecvs, peerAnswers]; simp) hpos (le_refl _)
  refine ⟨hrun, ?_⟩
  rw [hrun]
  simp only [dataShown_append]
  rw [dataShown_shownEvents, List.map_map]
  have hmap : (chunks.map ((fun r : RecvResult => untilZero (r.data.take 1024)) ∘
      fun c => (⟨(c.length : Int), c⟩ : RecvResult))) = chunks.map untilZero := by
    apply List.map_congr_left
    intro c hc
    simp only [Function.comp]
    rw [List.take_of_length_le (hchunks c hc).2]
  rw [hmap]
  simp [dataShown, connectHead, Event.dataPayload]

theorem setup_pipe_run (env : Env) (h1 : env.createPipe = true)
    (h2 : env.setHandleInformation = true) (h3 : env.createProcess = true)
    (h4 : env.childTerminates = true)
    (chunks : List (List Nat)) (last : PipeRead) (rest : List PipeRead)
    (hchunks : ∀ c ∈ chunks, c ≠ [] ∧ c.length ≤ 4095) (hlast : last.isLast = true)
    (hreads : env.pipeReads = pipeAnswers chunks last ++ rest) :
    setup_adb_forward env
      = ⟨setupHead ++
           ((chunks.map fun c => (⟨true, c⟩ : PipeRead)).map readEvent ++ [readEvent last]) ++
           setupTail env.exitCode (chunks.map untilZero).flatten,
         .returned (decide (env.exitCode = 0))⟩ := by
  have hmore : ∀ r ∈ chunks.map (fun c => (⟨true, c⟩ : PipeRead)), r.isLast = false := by
    intro r hr
    obtain ⟨c, hc, rfl⟩ := List.mem_map.mp hr
    have := (hchunks c hc).1
    simp [PipeRead.isLast, this]
  have hrun := setup_drained env h1 h2 h3 h4 _ last rest
    (by rw [hreads, pipeAnswers]; simp) hmore hlast
  have hmap : (chunks.map fun c => (⟨true, c⟩ : PipeRead)).map
      (fun r : PipeRead => untilZero (r.data.take 4095)) = chunks.map untilZero := by
    rw [List.map_map]
    apply List.map_congr_left
    intro c hc
    simp only [Function.comp]
    rw [List.take_of_length_le (hchunks c hc).2]
  rw [hrun, hmap]

theorem setup_pipe_diagnostic (env : Env) (h1 : env.createPipe = true)
    (h2 : env.setHandleInformation = true) (h3 : env.createProcess = true)
    (h4 : env.childTerminates = true) (hexit : env.exitCode ≠ 0)
    (chunks : List (List Nat)) (last : PipeRead) (rest : List PipeRead)
    (hchunks : ∀ c ∈ chunks, c ≠ [] ∧ c.length ≤ 4095) (hlast : last.isLast = true)
    (hreads : env.pipeReads = pipeAnswers chunks last ++ rest) :
    diagnosticShown (setup_adb_forward env).trace
      = if (chunks.map untilZero).flatten = [] then []
        else [(chunks.map untilZero).flatten] := by
  rw [setup_pipe_run env h1 h2 h3 h4 chunks last rest hchunks hlast hreads]
  simp only [diagnosticShown_append, diagnosticShown_readEvents, setupTail, if_neg hexit]
  split_ifs <;> simp [diagnosticShown, setupHead, Event.diagnosticPayload, readEvent]

/-! ## Bridge Setup reports success exactly on exit status zero -/

/-- C1: when the pipe, the handle configuration and the process creation
succeed (and the child ends and its output is drained), `setup_adb_forward`
returns, and returns `true` exactly when the exit status is zero; when one of
the three fails, it returns `false`. -/
theorem setup_adb_forward_true_iff_exit_zero (env : Env) :
    (env.createPipe = true → env.setHandleInformation = true → env.createProcess = true →
      env.childTerminates = true → (∃ r ∈ env.pipeReads, r.isLast = true) →
      ∃ b, (setup_adb_forward env).outcome = .returned b ∧ (b = true ↔ env.exitCode = 0)) ∧
    ((env.createPipe = false ∨ env.setHandleInformation = false ∨ env.createProcess = false) →
      (setup_adb_forward env).outcome = .returned false) := by
  constructor
  · intro h1 h2 h3 h4 h5
    exact ⟨decide (env.exitCode = 0), setup_returns_of_last env h1 h2 h3 h4 h5, by simp⟩
  · intro h
    cases h1 : env.createPipe with
    | false => rw [setup_noPipe env h1]
    | true =>
      cases h2 : env.setHandleInformation with
      | false => rw [setup_noInherit env h1 h2]
      | true =>
        cases h3 : env.createProcess with
        | false => rw [setup_noProcess env h1 h2 h3]
        | true => simp [h1, h2, h3] at h

theorem setup_adb_forward_true_iff_exit_zero_witness :
    (∃ b, (setup_adb_forward envDeviceNotFound).outcome = .returned b ∧
      (b = true ↔ envDeviceNotFound.exitCode = 0)) ∧
    (∃ b, (setup_adb_forward envStream).outcome = .returned b ∧
      (b = true ↔ envStream.exitCode = 0)) ∧
    (setup_adb_forward envNoPipe).outcome = .returned false :=
  ⟨(setup_adb_forward_true_iff_exit_zero envDeviceNotFound).1 rfl rfl rfl rfl
      ⟨⟨false, []⟩, by simp [envDeviceNotFound], rfl⟩,
   (setup_adb_forward_true_iff_exit_zero envStream).1 rfl rfl rfl rfl
      ⟨⟨false, []⟩, by simp [envStream], rfl⟩,
   (setup_adb_forward_true_iff_exit_zero envNoPipe).2 (Or.inl rfl)⟩

/-! ## No connection without a bridge -/

/-- C2: `main` enters `connect_to_gps` exactly when `setup_adb_forward`
returned `true`, and at most once; when `setup_adb_forward` returned `false`
the run of `main` holds no call into Winsock at all. -/
theorem connect_only_after_bridge_success (env : Env) :
    ((setup_adb_forward env).outcome = .returned false →
      Event.enter .connect_to_gps ∉ (main env).trace ∧
      ∀ e ∈ (main env).trace, e.isNetworking = false) ∧
    (Event.enter .connect_to_gps ∈ (main env).trace ↔
      (setup_adb_forward env).outcome = .returned true) ∧
    (main env).trace.count (.enter .connect_to_gps) ≤ 1 := by
  have hs := setup_trace_kinds env
  have hc := connect_trace_kinds env
  have hs1 : Event.enter .connect_to_gps ∉ (setup_adb_forward env).trace :=
    fun hmem => by simpa [Event.isMarker] using (hs _ hmem).2.1
  have hc1 : Event.enter .connect_to_gps ∉ (connect_to_gps env).trace :=
    fun hmem => by simpa [Event.isMarker] using (hc _ hmem).1
  have hfalse : (setup_adb_forward env).outcome = .returned false →
      Event.enter .connect_to_gps ∉ (main env).trace ∧
      ∀ e ∈ (main env).trace, e.isNetworking = false := by
    intro h
    rw [main_setup_false env h]
    refine ⟨by simp [mainHead, hs1], ?_⟩
    simp only [mainHead, List.forall_mem_append, List.forall_mem_cons]
    simp only [Event.isNetworking, List.not_mem_nil, false_implies, implies_true, and_true, true_and]
    exact fun e he => (hs e he).1
  refine ⟨hfalse, ?_, ?_⟩
  · constructor
    · intro hmem
      cases hso : (setup_adb_forward env).outcome with
      | returned b =>
        cases b with
        | true => rfl
        | false => exact absurd hmem (hfalse hso).1
      | blocked =>
        rw [main_setup_blocked env hso] at hmem
        simp [mainHead, hs1] at hmem
      | outOfBounds =>
        rw [main_setup_outOfBounds env hso] at hmem
        simp [mainHead, hs1] at hmem
    · intro h
      rw [main_setup_true env h]
      simp [mainBetween]
  · cases hso : (setup_adb_forward env).outcome with
    | returned b =>
      cases b with
      | true =>
        rw [main_setup_true env hso]
        simp only [List.count_append, List.count_eq_zero_of_not_mem hs1,
          List.count_eq_zero_of_not_mem hc1]
        cases (connect_to_gps env).outcome <;>
          simp [mainHead, mainBetween, mainTail, List.count_cons]
      | false =>
        rw [List.count_eq_zero_of_not_mem (hfalse hso).1]; omega
    | blocked =>
      rw [main_setup_blocked env hso]
      simp [mainHead, List.count_cons, List.count_eq_zero_of_not_mem hs1]
    | outOfBounds =>
      rw [main_setup_outOfBounds env hso]
      simp [mainHead, List.count_cons, List.count_eq_zero_of_not_mem hs1]

theorem connect_only_after_bridge_success_witness :
    Event.enter .connect_to_gps ∉ (main envNoPipe).trace ∧
    ∀ e ∈ (main envNoPipe).trace, e.isNetworking = false :=
  (connect_only_after_bridge_success envNoPipe).1 (by rw [setup_noPipe envNoPipe rfl])

/-! ## What the stream client displays -/

/-- C3 (as the code has it): for a peer that delivers non-empty chunks of at
most 1024 bytes and closes, `connect_to_gps` returns, writes nothing to
`std::cerr`, and displays one unit per chunk, in order, whose data is the
chunk up to its first zero byte; the whole chunk when it holds no zero byte. -/
theorem stream_displays_each_read (env : Env) (h1 : env.wsaStartup = 0)
    (h2 : env.socketOk = true) (h3 : env.connectRet ≠ SOCKET_ERROR)
    (chunks : List (List Nat)) (rest : List RecvResult)
    (hchunks : ∀ c ∈ chunks, c ≠ [] ∧ c.length ≤ 1024)
    (hrecvs : env.recvs = peerAnswers chunks ++ rest) :
    (connect_to_gps env).outcome = .returned () ∧
    dataShown (connect_to_gps env).trace = chunks.map untilZero ∧
    ((∀ c ∈ chunks, 0 ∉ c) → dataShown (connect_to_gps env).trace = chunks) ∧
    (∀ e ∈ (connect_to_gps env).trace, e.isCerr = false) := by
  obtain ⟨hrun, hshown⟩ := connect_peer_run env h1 h2 h3 chunks rest hchunks hrecvs
  refine ⟨by rw [hrun], hshown, ?_, ?_⟩
  · intro hz
    rw [hshown, map_untilZero_of_not_mem chunks hz]
  · rw [hrun]
    simp only [connectHead, List.forall_mem_append, List.forall_mem_cons, List.forall_mem_map,
      List.forall_mem_flatten, shownEvents]
    simp [Event.isCerr]

theorem stream_displays_each_read_witness :
    (connect_to_gps envStream).outcome = .returned () ∧
    dataShown (connect_to_gps envStream).trace
      = [[36, 71, 80, 71, 71, 65], [13, 10]].map untilZero ∧
    ((∀ c ∈ [[36, 71, 80, 71, 71, 65], [13, 10]], 0 ∉ c) →
      dataShown (connect_to_gps envStream).trace = [[36, 71, 80, 71, 71, 65], [13, 10]]) ∧
    (∀ e ∈ (connect_to_gps envStream).trace, e.isCerr = false) :=
  stream_displays_each_read envStream rfl rfl (by decide)
    [[36, 71, 80, 71, 71, 65], [13, 10]] [] (by decide) rfl

/-- C3 as stated fails: the peer delivers the bytes 65, 0, 66 in one read and
closes; the unit displayed for that read holds the byte 65 only. -/
theorem stream_display_stops_at_zero_byte :
    envNulStream.recvs = peerAnswers [[65, 0, 66]] ∧
    (connect_to_gps envNulStream).outcome = .returned () ∧
    dataShown (connect_to_gps envNulStream).trace = [[65]] ∧
    dataShown (connect_to_gps envNulStream).trace ≠ [[65, 0, 66]] := by
  obtain ⟨hrun, hshown⟩ := connect_peer_run envNulStream rfl rfl (by decide)
    [[65, 0, 66]] [] (by decide) rfl
  refine ⟨rfl, by rw [hrun], ?_, ?_⟩
  · rw [hshown]; decide
  · rw [hshown]; decide

/-! ## The diagnostic text -/

/-- C4 (as the code has it): when the command exits with a non-zero status
after the pipe delivered `chunks` (non-empty, at most 4095 bytes each, any
number of them), `setup_adb_forward` returns `false`; its trace ends with the
line of the exit status followed, when the text is not empty, by one
diagnostic line; the text is the concatenation, in order, of every chunk up to
its first zero byte, hence of all bytes read when no chunk holds a zero
byte. -/
theorem diagnostic_text_surfaced (env : Env) (h1 : env.createPipe = true)
    (h2 : env.setHandleInformation = true) (h3 : env.createProcess = true)
    (h4 : env.childTerminates = true) (hexit : env.exitCode ≠ 0)
    (chunks : List (List Nat)) (last : PipeRead) (rest : List PipeRead)
    (hchunks : ∀ c ∈ chunks, c ≠ [] ∧ c.length ≤ 4095) (hlast : last.isLast = true)
    (hreads : env.pipeReads = pipeAnswers chunks last ++ rest) :
    (setup_adb_forward env).outcome = .returned false ∧
    (∃ front, (∀ e ∈ front, e.isCerr = false) ∧
      (setup_adb_forward env).trace
        = front ++
          (.cerr [.lit "ADB端口转发设置失败，返回码: ", .num env.exitCode, .endl] ::
            if (chunks.map untilZero).flatten = [] then []
            else [.cerr [.lit "错误输出: ", .text (chunks.map untilZero).flatten, .endl]])) ∧
    (diagnosticShown (setup_adb_forward env).trace
      = if (chunks.map untilZero).flatten = [] then []
        else [(chunks.map untilZero).flatten]) ∧
    ((∀ c ∈ chunks, 0 ∉ c) → chunks ≠ [] →
      diagnosticShown (setup_adb_forward env).trace = [chunks.flatten]) := by
  have hrun := setup_pipe_run env h1 h2 h3 h4 chunks last rest hchunks hlast hreads
  have hdiag :=
    setup_pipe_diagnostic env h1 h2 h3 h4 hexit chunks last rest hchunks hlast hreads
  refine ⟨?_, ?_, hdiag, ?_⟩
  · rw [hrun]; simp [hexit]
  · refine ⟨setupHead ++
      ((chunks.map fun c => (⟨true, c⟩ : PipeRead)).map readEvent ++ [readEvent last]) ++
      [.CloseHandle .hProcess, .CloseHandle .hThread, .CloseHandle .hChildStdoutRd], ?_, ?_⟩
    · simp only [setupHead, List.forall_mem_append, List.forall_mem_cons, List.forall_mem_map]
      simp [readEvent, Event.isCerr]
    · rw [hrun]
      simp [setupTail, hexit, List.append_assoc]
  · intro hz hne
    rw [hdiag, flatten_map_untilZero_of_not_mem chunks hz]
    have hflat : chunks.flatten ≠ [] := by
      obtain ⟨c, cs, rfl⟩ := List.exists_cons_of_ne_nil hne
      have hc := (hchunks c (by simp)).1
      simp [hc]
    rw [if_neg hflat]

theorem diagnostic_text_surfaced_witness :
    (setup_adb_forward envDeviceNotFound).outcome = .returned false ∧
    diagnosticShown (setup_adb_forward envDeviceNotFound).trace
      = [[100, 101, 118, 105, 99, 101, 32, 110, 111, 116, 32, 102, 111, 117, 110, 100]] :=
  have h := diagnostic_text_surfaced envDeviceNotFound rfl rfl rfl rfl (by decide)
    [[100, 101, 118, 105, 99, 101, 32, 110, 111, 116, 32, 102, 111, 117, 110, 100]]
    ⟨false, []⟩ [] (by decide) rfl rfl
  ⟨h.1, h.2.2.2 (by decide) (by decide)⟩

/-- C4 as stated fails: `adb` prints the bytes 100, 0, 101 in one read and exits
with status 1; the diagnostic line holds the byte 100 only. -/
theorem diagnostic_text_stops_at_zero_byte :
    envNulOutput.pipeReads = pipeAnswers [[100, 0, 101]] ⟨false, []⟩ ∧
    envNulOutput.exitCode = 1 ∧
    (setup_adb_forward envNulOutput).outcome = .returned false ∧
    diagnosticShown (setup_adb_forward envNulOutput).trace = [[100]] ∧
    diagnosticShown (setup_adb_forward envNulOutput).trace ≠ [[100, 0, 101]] := by
  have hrun := setup_pipe_run envNulOutput rfl rfl rfl rfl [[100, 0, 101]] ⟨false, []⟩ []
    (by decide) rfl rfl
  have hdiag := setup_pipe_diagnostic envNulOutput rfl rfl rfl rfl (by decide)
    [[100, 0, 101]] ⟨false, []⟩ [] (by decide) rfl rfl
  refine ⟨rfl, rfl, by rw [hrun]; rfl, ?_, ?_⟩
  · rw [hdiag]; decide
  · rw [hdiag]; decide

/-! ## Connect failure -/

/-- C5: when `connect` returns `SOCKET_ERROR`, `connect_to_gps` writes the
failure message, calls `recv` zero times, displays no data, has called
`connect` once, and returns. -/
theorem connect_failure_skips_read_loop (env : Env) (h1 : env.wsaStartup = 0)
    (h2 : env.socketOk = true) (h3 : env.connectRet = SOCKET_ERROR) :
    (connect_to_gps env).outcome = .returned () ∧
    Event.cerr [.lit "连接失败: ", .num env.wsaLastError, .endl] ∈ (connect_to_gps env).trace ∧
    recvCalls (connect_to_gps env).trace = 0 ∧
    dataShown (connect_to_gps env).trace = [] ∧
    connectCalls (connect_to_gps env).trace = 1 := by
  rw [connect_refused env h1 h2 h3]
  refine ⟨rfl, by simp, rfl, rfl, rfl⟩

theorem connect_failure_skips_read_loop_witness :
    (connect_to_gps envRefused).outcome = .returned () ∧
    Event.cerr [.lit "连接失败: ", .num envRefused.wsaLastError, .endl]
      ∈ (connect_to_gps envRefused).trace ∧
    recvCalls (connect_to_gps envRefused).trace = 0 ∧
    dataShown (connect_to_gps envRefused).trace = [] ∧
    connectCalls (connect_to_gps envRefused).trace = 1 :=
  connect_failure_skips_read_loop envRefused rfl rfl rfl

/-! ## End of the stream -/

/-- C6: the loop of `connect_to_gps` ends at the first `recv` that returns zero
or a negative count: `recv` is called once more than there are positive
results before it, nothing is displayed for that read, and the outcome, the
output and the releases are the same for every non-positive value. -/
theorem read_loop_ends_at_first_nonpositive (env : Env) (h1 : env.wsaStartup = 0)
    (h2 : env.socketOk = true) (h3 : env.connectRet ≠ SOCKET_ERROR)
    (pos : List RecvResult) (last : RecvResult) (rest : List RecvResult)
    (hrecvs : env.recvs = pos ++ last :: rest)
    (hpos : ∀ r ∈ pos, 0 < r.ret) (hlast : last.ret ≤ 0) :
    (connect_to_gps env).outcome = .returned () ∧
    recvCalls (connect_to_gps env).trace = pos.length + 1 ∧
    (dataShown (connect_to_gps env).trace).length = pos.length ∧
    (∃ front, (connect_to_gps env).trace
        = front ++ [.memset 1025, .recv 1024 last.ret, .closesocket, .WSACleanup] ∧
      recvCalls front = pos.length) ∧
    ∀ other : RecvResult, other.ret ≤ 0 →
      (connect_to_gps (env.withRecvs (pos ++ other :: rest))).outcome
        = (connect_to_gps env).outcome ∧
      (connect_to_gps (env.withRecvs (pos ++ other :: rest))).trace.filter Event.isOutput
        = (connect_to_gps env).trace.filter Event.isOutput ∧
      (connect_to_gps (env.withRecvs (pos ++ other :: rest))).trace.filter Event.isRelease
        = (connect_to_gps env).trace.filter Event.isRelease := by
  have hrun := connect_closed env h1 h2 h3 pos last rest hrecvs hpos hlast
  have hfront : recvCalls (connectHead env.connectRet ++ (pos.map shownEvents).flatten)
      = pos.length := by
    have := recvCalls_shownEvents pos
    unfold recvCalls at this ⊢
    rw [List.countP_append, this]
    simp [connectHead, List.countP_cons, Event.isRecv]
  refine ⟨by rw [hrun], ?_, ?_, ?_, ?_⟩
  · rw [hrun]
    have := recvCalls_shownEvents pos
    unfold recvCalls at this ⊢
    simp only [List.countP_append, this]
    simp [connectHead, List.countP_cons, Event.isRecv]
  · rw [hrun]
    simp only [dataShown_append, dataShown_shownEvents, List.length_append, List.length_map]
    simp [dataShown, connectHead, Event.dataPayload]
  · refine ⟨connectHead env.connectRet ++ (pos.map shownEvents).flatten, ?_, hfront⟩
    rw [hrun]
    simp [List.append_assoc]
  · intro other hother
    have hrun2 := connect_closed (env.withRecvs (pos ++ other :: rest)) h1 h2 h3 pos other rest
      rfl hpos hother
    rw [hrun, hrun2]
    refine ⟨rfl, ?_, ?_⟩
    · simp [List.filter_append, Env.withRecvs, Event.isOutput]
    · simp [List.filter_append, Env.withRecvs, Event.isRelease, Event.released]

theorem read_loop_ends_at_first_nonpositive_witness :
    (connect_to_gps envClosedAtOnce).outcome = .returned () ∧
    recvCalls (connect_to_gps envClosedAtOnce).trace = 1 ∧
    (dataShown (connect_to_gps envClosedAtOnce).trace).length = 0 :=
  have h := read_loop_ends_at_first_nonpositive envClosedAtOnce rfl rfl (by decide)
    [] ⟨0, []⟩ [] rfl (by simp) (by decide)
  ⟨h.1, h.2.1, h.2.2.1⟩

/-! ## Resources are released once -/

/-- C7: on every path on which `setup_adb_forward` or `connect_to_gps` returns,
each resource opened on the path has been released once and nothing is held
at the return; and on no path at all (returning or not) is a resource released
that is not held. -/
theorem resources_released_exactly_once (env : Env) :
    (∀ b, (setup_adb_forward env).outcome = .returned b →
      releasedExactlyOnce (setup_adb_forward env).trace) ∧
    (∀ u, (connect_to_gps env).outcome = .returned u →
      releasedExactlyOnce (connect_to_gps env).trace) ∧
    account [] (setup_adb_forward env).trace ≠ none ∧
    account [] (connect_to_gps env).trace ≠ none := by
  have hs : (∀ b, (setup_adb_forward env).outcome = .returned b →
      releasedExactlyOnce (setup_adb_forward env).trace) ∧
      account [] (setup_adb_forward env).trace ≠ none := by
    apply setup_elim env (fun run => (∀ b, run.outcome = .returned b →
      releasedExactlyOnce run.trace) ∧ account [] run.trace ≠ none)
    · exact ⟨fun _ _ => rfl, by decide⟩
    · exact ⟨fun _ _ => rfl, by decide⟩
    · exact ⟨fun _ _ => rfl, by simp [account, Event.released, Event.acquired]⟩
    · exact ⟨fun _ h => by simp at h, by decide⟩
    · intro rs _
      refine ⟨fun _ h => by simp at h, ?_⟩
      have := account_neutral _ (readEvents_neutral rs)
        [.handle .hProcess, .handle .hThread, .handle .hChildStdoutRd] []
      rw [account_setupHead, ← List.append_nil (rs.map readEvent), this]
      simp [account]
    · intro more last _ _
      have hn : ∀ e ∈ more.map readEvent ++ [readEvent last], e.isNeutral = true := by
        rw [← List.map_singleton, ← List.map_append]
        exact readEvents_neutral _
      have hacc : account [] (setupHead ++ (more.map readEvent ++ [readEvent last]) ++
          setupTail env.exitCode (more.map fun r => untilZero (r.data.take 4095)).flatten)
          = some [] := by
        rw [List.append_assoc, account_setupHead, account_neutral _ hn, account_setupTail]
      exact ⟨fun _ _ => hacc, by rw [hacc]; simp⟩
  have hc : (∀ u, (connect_to_gps env).outcome = .returned u →
      releasedExactlyOnce (connect_to_gps env).trace) ∧
      account [] (connect_to_gps env).trace ≠ none := by
    apply connect_elim env (fun run => (∀ u, run.outcome = .returned u →
      releasedExactlyOnce run.trace) ∧ account [] run.trace ≠ none)
    · intro hne
      have hacc : account [] [.WSAStartup env.wsaStartup,
          .cerr [.lit "WSAStartup失败: ", .num env.wsaStartup, .endl]] = some [] := by
        simp [account, Event.released, Event.acquired, hne]
      exact ⟨fun _ _ => hacc, by rw [hacc]; simp⟩
    · exact ⟨fun _ _ => by simp [releasedExactlyOnce, account, Event.released, Event.acquired],
        by simp [account, Event.released, Event.acquired]⟩
    · exact ⟨fun _ _ => by simp [releasedExactlyOnce, account, Event.released, Event.acquired],
        by simp [account, Event.released, Event.acquired]⟩
    · intro rs _
      refine ⟨fun _ h => by simp at h, ?_⟩
      rw [account_connectHead, account_neutral _ (shownEvents_neutral rs)]
      simp [account, Event.released, Event.acquired]
    · intro pos last _ _
      have hacc : account [] (connectHead env.connectRet ++
          ((pos.map shownEvents).flatten ++ [.memset 1025, .recv 1024 last.ret]) ++
          [.closesocket, .WSACleanup]) = some [] := by
        rw [List.append_assoc, account_connectHead, List.append_assoc,
          account_neutral _ (shownEvents_neutral pos)]
        simp [account, Event.released, Event.acquired]
      exact ⟨fun _ _ => hacc, by rw [hacc]; simp⟩
  exact ⟨hs.1, hc.1, hs.2, hc.2⟩

theorem resources_released_exactly_once_witness :
    releasedExactlyOnce (setup_adb_forward envDeviceNotFound).trace ∧
    releasedExactlyOnce (connect_to_gps envStream).trace :=
  ⟨(resources_released_exactly_once envDeviceNotFound).1 false
      (by rw [setup_drained envDeviceNotFound rfl rfl rfl rfl
            [⟨true, [100, 101, 118, 105, 99, 101, 32, 110, 111, 116, 32, 102, 111, 117, 110, 100]⟩]
            ⟨false, []⟩ [] rfl (by decide) rfl]; rfl),
   (resources_released_exactly_once envStream).2.1 ()
      (by rw [connect_closed envStream rfl rfl (by decide)
            [⟨6, [36, 71, 80, 71, 71, 65]⟩, ⟨2, [13, 10]⟩] ⟨0, []⟩ [] rfl (by decide)
            (by decide)])⟩

/-! ## Order of the two stages -/

/-- C8: in every run of `main` that holds a call of `connect`, the wait for the
child process and a complete drain of the pipe come before it, and between the
return of `setup_adb_forward` and the entry of `connect_to_gps` there is one
`Sleep(1000)`; nothing after that entry reads the pipe, waits for the child or
sleeps. -/
theorem bridge_completes_before_connect (env : Env) (ret : Int)
    (h : Event.connect ret ∈ (main env).trace) :
    ∃ drain post,
      (main env).trace =
        [.cout [.lit "GPS数据接收客户端启动", .endl], .enter .setup_adb_forward,
         .cout [.lit "设置ADB端口转发", .endl], .CreatePipe true, .SetHandleInformation true,
         .CreateProcessA true, .CloseHandle .hChildStdoutWr, .WaitForSingleObject,
         .GetExitCodeProcess]
        ++ drain ++
        [.CloseHandle .hProcess, .CloseHandle .hThread, .CloseHandle .hChildStdoutRd,
         .cout [.lit "成功设置ADB端口转发", .endl], .leave .setup_adb_forward, .Sleep 1000,
         .cout [.lit "尝试连接到localhost:54321...", .endl], .enter .connect_to_gps]
        ++ post ∧
      drainComplete drain ∧
      Event.connect ret ∈ post ∧
      ∀ e ∈ post, e.isReadFile = false ∧ e.isWait = false ∧ e.isSleep = false := by
  have hs := setup_trace_kinds env
  have hc := connect_trace_kinds env
  have hs1 : Event.connect ret ∉ (setup_adb_forward env).trace :=
    fun hmem => by simpa [Event.isNetworking] using (hs _ hmem).1
  cases hso : (setup_adb_forward env).outcome with
  | returned b =>
    cases b with
    | false =>
      rw [main_setup_false env hso] at h
      simp [mainHead, hs1] at h
    | true =>
      obtain ⟨drain, hdrain, htrace⟩ := setup_true_trace env hso
      rw [main_setup_true env hso, htrace] at h ⊢
      have hnd : Event.connect ret ∉ drain := by
        intro hmem
        obtain ⟨body, ok, n, rfl, -, hbody⟩ := hdrain
        rcases List.mem_append.mp hmem with hmem | hmem
        · obtain ⟨k, -, hk⟩ := hbody _ hmem
          exact Event.noConfusion hk
        · simp at hmem
      refine ⟨drain, (connect_to_gps env).trace ++ mainTail (connect_to_gps env).outcome,
        ?_, hdrain, ?_, ?_⟩
      · simp [mainHead, setupHead, setupTail, mainBetween, List.append_assoc]
      · simp only [List.mem_append] at h ⊢
        rcases h with (((h | (h | h) | h) | h) | h) | h
        · simp [mainHead] at h
        · simp [setupHead] at h
        · exact absurd h hnd
        · simp [setupTail] at h
        · simp [mainBetween] at h
        · exact Or.inl h
        · exact Or.inr h
      · simp only [List.forall_mem_append]
        refine ⟨fun e he => ⟨(hc e he).2.2.1, (hc e he).2.2.2, (hc e he).2.1⟩, ?_⟩
        cases (connect_to_gps env).outcome <;>
          simp [mainTail, Event.isReadFile, Event.isWait, Event.isSleep]
  | blocked =>
    rw [main_setup_blocked env hso] at h
    simp [mainHead, hs1] at h
  | outOfBounds =>
    rw [main_setup_outOfBounds env hso] at h
    simp [mainHead, hs1] at h

theorem bridge_completes_before_connect_witness :
    ∃ drain post,
      (main envStream).trace =
        [.cout [.lit "GPS数据接收客户端启动", .endl], .enter .setup_adb_forward,
         .cout [.lit "设置ADB端口转发", .endl], .CreatePipe true, .SetHandleInformation true,
         .CreateProcessA true, .CloseHandle .hChildStdoutWr, .WaitForSingleObject,
         .GetExitCodeProcess]
        ++ drain ++
        [.CloseHandle .hProcess, .CloseHandle .hThread, .CloseHandle .hChildStdoutRd,
         .cout [.lit "成功设置ADB端口转发", .endl], .leave .setup_adb_forward, .Sleep 1000,
         .cout [.lit "尝试连接到localhost:54321...", .endl], .enter .connect_to_gps]
        ++ post ∧
      drainComplete drain ∧
      Event.connect 0 ∈ post ∧
      ∀ e ∈ post, e.isReadFile = false ∧ e.isWait = false ∧ e.isSleep = false :=
  bridge_completes_before_connect envStream 0 (by
    rw [main_setup_true envStream (by rw [envStream_setup]), envStream_connect]
    simp [connectHead])

/-! ## Exit code -/

/-- C9: `main` returns 0 whatever `setup_adb_forward` and `connect_to_gps` did. -/
theorem main_returns_zero (env : Env) :
    ((setup_adb_forward env).outcome = .returned false → (main env).outcome = .returned 0) ∧
    ((setup_adb_forward env).outcome = .returned true →
      (connect_to_gps env).outcome = .returned () → (main env).outcome = .returned 0) ∧
    (∀ code, (main env).outcome = .returned code → code = 0) := by
  refine ⟨fun h => ?_, fun h hc => ?_, fun code hcode => ?_⟩
  · rw [main_setup_false env h]
  · rw [main_setup_true env h, hc]; rfl
  · cases hs : (setup_adb_forward env).outcome with
    | returned b =>
      cases b with
      | false =>
        rw [main_setup_false env hs] at hcode
        exact (Outcome.returned.inj hcode).symm
      | true =>
        rw [main_setup_true env hs] at hcode
        cases hc : (connect_to_gps env).outcome <;> rw [hc] at hcode <;>
          simp [mainOutcome] at hcode
        exact hcode.symm
    | blocked => rw [main_setup_blocked env hs] at hcode; simp at hcode
    | outOfBounds => rw [main_setup_outOfBounds env hs] at hcode; simp at hcode

theorem main_returns_zero_witness :
    (main envNoPipe).outcome = .returned 0 ∧ (main envStream).outcome = .returned 0 :=
  ⟨(main_returns_zero envNoPipe).1 (by rw [setup_noPipe envNoPipe rfl]),
   (main_returns_zero envStream).2.1 (by rw [envStream_setup]) (by rw [envStream_connect])⟩

/-! ## Buffer bounds -/

/-- C10: no run of `setup_adb_forward` or `connect_to_gps` accesses a buffer
outside its bounds.  Every `ReadFile` asks for 4095 bytes and stores fewer
than 4096, so the terminator write is inside the 4096-byte buffer; every
`recv` asks for 1024 bytes right after a `memset` of the 1025 bytes, byte
1024 stays zero, every text displayed is at most 1024 bytes long, and the
text displayed for the i-th read is made of the bytes of the i-th read
alone. -/
theorem buffer_bounds_respected (env : Env) :
    (setup_adb_forward env).outcome ≠ .outOfBounds ∧
    (∀ req ok n, Event.ReadFile req ok n ∈ (setup_adb_forward env).trace →
      req = 4095 ∧ n < 4096) ∧
    (∀ buffer data : List Nat, buffer.length = 4096 →
      ∃ buffer1 n buffer2, deliver buffer (buffer.length - 1) data = some (buffer1, n) ∧
        n ≤ 4095 ∧ storeAt buffer1 n 0 = some buffer2 ∧ buffer2.length = 4096) ∧
    (connect_to_gps env).outcome ≠ .outOfBounds ∧
    (∀ n, Event.memset n ∈ (connect_to_gps env).trace → n = 1025) ∧
    (∀ len ret, Event.recv len ret ∈ (connect_to_gps env).trace → len = 1024) ∧
    zeroedBeforeEachRecv 1025 (connect_to_gps env).trace = true ∧
    (∀ buffer data : List Nat, buffer.length = 1025 →
      ∃ buffer1 n, deliver (zeroed buffer) 1024 data = some (buffer1, n) ∧
        buffer1.length = 1025 ∧ buffer1[1024]? = some 0 ∧
        cstr buffer1 = some (untilZero (data.take 1024))) ∧
    (∀ s ∈ dataShown (connect_to_gps env).trace, s.length ≤ 1024) ∧
    (∃ k, dataShown (connect_to_gps env).trace
        = (env.recvs.take k).map fun r => untilZero (r.data.take 1024)) := by
  have hshown : ∃ k, dataShown (connect_to_gps env).trace
      = (env.recvs.take k).map fun r => untilZero (r.data.take 1024) := by
    apply connect_elim_script env (fun run => ∃ k, dataShown run.trace
      = (env.recvs.take k).map fun r => untilZero (r.data.take 1024))
    · intro t ht _
      exact ⟨0, by simp [ht]⟩
    · refine ⟨env.recvs.length, ?_⟩
      simp only [dataShown_append, dataShown_shownEvents, List.take_length]
      simp [dataShown, connectHead, Event.dataPayload]
    · intro pos last rest hr
      refine ⟨pos.length, ?_⟩
      simp only [dataShown_append, dataShown_shownEvents, hr, List.take_left']
      simp [dataShown, connectHead, Event.dataPayload]
  refine ⟨?_, ?_, ?_, ?_, ?_, ?_, ?_, ?_, ?_, hshown⟩
  · apply setup_elim env (fun run => run.outcome ≠ .outOfBounds) <;> simp
  · apply setup_elim_script env (fun run => ∀ req ok n,
      Event.ReadFile req ok n ∈ run.trace → req = 4095 ∧ n < 4096)
    · intro t ht req ok n hmem
      have := ht _ hmem
      simp [Event.isReadFile] at this
    · intro t ht req ok n hmem
      have := ht _ hmem
      simp [Event.isReadFile] at this
    · intro req ok n hmem
      simp only [setupHead, List.mem_append, List.mem_map, readEvent] at hmem
      rcases hmem with hmem | ⟨r, -, hr⟩
      · simp at hmem
      · injection hr with h1 h2 h3
        have := take_length_le r.data 4095
        omega
    · intro more last rest _ req ok n hmem
      have hhead : Event.ReadFile req ok n ∉ setupHead := by simp [setupHead]
      have htail : Event.ReadFile req ok n ∉ setupTail env.exitCode
          (more.map fun r => untilZero (r.data.take 4095)).flatten := by
        unfold setupTail
        split_ifs <;> simp
      simp only [List.mem_append, List.mem_map, List.mem_singleton, readEvent] at hmem
      rcases hmem with (hmem | ⟨r, -, hr⟩ | hr) | hmem
      · exact absurd hmem hhead
      · injection hr with h1 h2 h3
        have := take_length_le r.data 4095
        omega
      · injection hr with h1 h2 h3
        have := take_length_le last.data 4095
        omega
      · exact absurd hmem htail
  · intro buffer data hlen
    obtain ⟨b1, b2, hd, hs, hl2, -⟩ := read_step buffer 4095 hlen data
    exact ⟨b1, _, b2, hd, take_length_le data 4095, hs, hl2⟩
  · apply connect_elim env (fun run => run.outcome ≠ .outOfBounds) <;> simp
  · apply connect_elim_script env (fun run => ∀ n, Event.memset n ∈ run.trace → n = 1025)
    · intro t _ ht n hmem
      exact absurd rfl ((ht _ hmem).2 n)
    · intro n hmem
      simp only [connectHead, List.mem_append, List.mem_cons, List.mem_singleton,
        List.not_mem_nil, or_false] at hmem
      rcases hmem with hmem | hmem | hmem
      · simp at hmem
      · exact (memset_recv_of_shownEvents _ _ hmem).1 n rfl
      · injection hmem
    · intro pos last rest _ n hmem
      simp only [connectHead, List.mem_append, List.mem_cons, List.mem_singleton,
        List.not_mem_nil, or_false] at hmem
      rcases hmem with (hmem | hmem | hmem) | hmem
      · simp at hmem
      · exact (memset_recv_of_shownEvents _ _ hmem).1 n rfl
      · simpa using hmem
      · simp at hmem
  · apply connect_elim_script env (fun run => ∀ len ret,
      Event.recv len ret ∈ run.trace → len = 1024)
    · intro t _ ht len ret hmem
      have := (ht _ hmem).1
      simp [Event.isRecv] at this
    · intro len ret hmem
      simp only [connectHead, List.mem_append, List.mem_cons, List.mem_singleton,
        List.not_mem_nil, or_false] at hmem
      rcases hmem with hmem | hmem | hmem
      · simp at hmem
      · exact (memset_recv_of_shownEvents _ _ hmem).2 len ret rfl
      · simp at hmem
    · intro pos last rest _ len ret hmem
      simp only [connectHead, List.mem_append, List.mem_cons, List.mem_singleton,
        List.not_mem_nil, or_false] at hmem
      rcases hmem with (hmem | hmem | hmem) | hmem
      · simp at hmem
      · exact (memset_recv_of_shownEvents _ _ hmem).2 len ret rfl
      · simp at hmem
        exact hmem.1
      · simp at hmem
  · apply connect_elim_script env (fun run => zeroedBeforeEachRecv 1025 run.trace = true)
    · intro t _ ht
      exact zeroedBeforeEachRecv_of_no_recv t ht
    · rw [zeroedBeforeEachRecv_connectHead, zeroedBeforeEachRecv_shownEvents]
      rfl
    · intro pos last rest _
      rw [List.append_assoc, zeroedBeforeEachRecv_connectHead, List.append_assoc,
        zeroedBeforeEachRecv_shownEvents]
      simp [zeroedBeforeEachRecv]
  · intro buffer data hlen
    obtain ⟨b1, hd, hl1, hz, hc⟩ := recv_step buffer 1024 hlen data
    exact ⟨b1, _, hd, hl1, hz, hc⟩
  · obtain ⟨k, hk⟩ := hshown
    rw [hk]
    simp only [List.forall_mem_map]
    intro r _
    have h1 := untilZero_length_le (r.data.take 1024)
    have h2 := take_length_le r.data 1024
    omega

theorem buffer_bounds_respected_witness :
    ((4095 : Nat) = 4095 ∧ 0 < 4096) ∧
    (∃ buffer1 n buffer2,
      deliver (List.replicate 4096 7) ((List.replicate 4096 7).length - 1) [104, 105]
        = some (buffer1, n) ∧
      n ≤ 4095 ∧ storeAt buffer1 n 0 = some buffer2 ∧ buffer2.length = 4096) ∧
    (∃ buffer1 n,
      deliver (zeroed (List.replicate 1025 7)) 1024 [104, 0, 105] = some (buffer1, n) ∧
      buffer1.length = 1025 ∧ buffer1[1024]? = some 0 ∧
      cstr buffer1 = some (untilZero ([104, 0, 105].take 1024))) :=
  ⟨(buffer_bounds_respected envStream).2.1 4095 false 0
      (by rw [envStream_setup]; simp [readEvent]),
   (buffer_bounds_respected envStream).2.2.1 (List.replicate 4096 7) [104, 105]
      (List.length_replicate 4096 7),
   (buffer_bounds_respected envStream).2.2.2.2.2.2.2.1 (List.replicate 1025 7) [104, 0, 105]
      (List.length_replicate 1025 7)⟩

end GPSUSB
